import Mathlib

/-!
# jwt-auth: session and token lifecycle

A shallow embedding of the session service of `jwt-auth`
(`internal/services/auth/auth.go`), of its codec (`internal/lib/jwt/jwt.go`),
of the two storage adapters (`internal/storage/user`, `internal/storage/refresh`)
and of the configuration loader (`internal/config/config.go`).

Conventions of the embedding.

* A Go result `(v, err)` is an `Except Error`.
* The database is a value of type `Store`. A transaction works on a copy of the
  committed store; `tx.Commit` installs the copy, the deferred `tx.Rollback`
  discards it. Every service operation returns its result together with the
  committed store it leaves behind and the way its transaction ended.
* Whatever the service cannot decide by itself is read from an `Env`: the
  clock, the identifiers the database assigns, and the failure (if any) of each
  round trip to the database or of the signer.
* Signatures are symbolic over computed keys: HMAC first turns the key into a
  key block (zero bytes fill a short key, the SHA-2 digest replaces a key longer
  than a block), which is computed here; the tag of a payload under that block
  is the term `Signature.mac alg block payload`, and a tag verifies under a
  secret exactly when it is the term of that secret's key block.
* Instants are integers counting nanoseconds since the Unix epoch, durations are
  integers counting nanoseconds (`time.Duration`), NumericDate claims are
  integers counting whole seconds. Over the instants an `int64` of nanoseconds
  holds (years 1678 to 2262) the seconds written into a token are read back
  exactly.
* Log lines are not part of the model: they change neither a result nor the
  store.
-/

namespace JwtAuth

/-! ## Errors -/

/-- Causes for which `jwt.ParseWithClaims` (golang-jwt v5) rejects a token. -/
inductive ParseError
  | malformed
  | unverifiable
  | signatureInvalid
  | expired
  | notValidYet
  deriving DecidableEq, Repr

/-- Go `error` values that travel through the service. -/
inductive Error
  /-- The value of `errors.New(text)`. -/
  | new (text : String)
  /-- A `*pgconn.PgError` with its SQLSTATE code. -/
  | pg (code : String) (message : String)
  /-- The sentinel `pgx.ErrNoRows`. -/
  | errNoRows
  /-- Any other failure reported by the pool or the driver. -/
  | driver (text : String)
  /-- The value of `fmt.Errorf("failed to decode token: %w", cause)`. -/
  | decode (cause : ParseError)
  deriving DecidableEq, Repr

deriving instance DecidableEq for Except

/-- The constant `pgerrcode.UniqueViolation`. -/
def UniqueViolation : String := "23505"

/-! ## Keys of HMAC (`crypto/hmac`, `crypto/sha256`, `crypto/sha512`)

Bytes and machine words are natural numbers, reduced modulo `2 ^ w` where a
word could overflow. -/

/-- The UTF-8 encoding of a character. -/
def utf8Bytes (c : Char) : List Nat :=
  let v := c.val.toNat
  if v < 0x80 then [v]
  else if v < 0x800 then [0xC0 + v / 64, 0x80 + v % 64]
  else if v < 0x10000 then [0xE0 + v / 4096, 0x80 + v / 64 % 64, 0x80 + v % 64]
  else [0xF0 + v / 262144, 0x80 + v / 4096 % 64, 0x80 + v / 64 % 64, 0x80 + v % 64]

/-- The conversion `[]byte(s)` of a string. -/
def bytesOf (s : String) : List Nat :=
  s.data.flatMap utf8Bytes

/-- Round constants of SHA-256 (FIPS 180-4, 4.2.2). -/
def K256 : List Nat :=
  [0x428a2f98, 0x71374491, 0xb5c0fbcf, 0xe9b5dba5, 0x3956c25b, 0x59f111f1,
   0x923f82a4, 0xab1c5ed5, 0xd807aa98, 0x12835b01, 0x243185be, 0x550c7dc3,
   0x72be5d74, 0x80deb1fe, 0x9bdc06a7, 0xc19bf174, 0xe49b69c1, 0xefbe4786,
   0xfc19dc6, 0x240ca1cc, 0x2de92c6f, 0x4a7484aa, 0x5cb0a9dc, 0x76f988da,
   0x983e5152, 0xa831c66d, 0xb00327c8, 0xbf597fc7, 0xc6e00bf3, 0xd5a79147,
   0x6ca6351, 0x14292967, 0x27b70a85, 0x2e1b2138, 0x4d2c6dfc, 0x53380d13,
   0x650a7354, 0x766a0abb, 0x81c2c92e, 0x92722c85, 0xa2bfe8a1, 0xa81a664b,
   0xc24b8b70, 0xc76c51a3, 0xd192e819, 0xd6990624, 0xf40e3585, 0x106aa070,
   0x19a4c116, 0x1e376c08, 0x2748774c, 0x34b0bcb5, 0x391c0cb3, 0x4ed8aa4a,
   0x5b9cca4f, 0x682e6ff3, 0x748f82ee, 0x78a5636f, 0x84c87814, 0x8cc70208,
   0x90befffa, 0xa4506ceb, 0xbef9a3f7, 0xc67178f2]

/-- Round constants of SHA-384 and SHA-512 (FIPS 180-4, 4.2.3). -/
def K512 : List Nat :=
  [0x428a2f98d728ae22, 0x7137449123ef65cd, 0xb5c0fbcfec4d3b2f,
   0xe9b5dba58189dbbc, 0x3956c25bf348b538, 0x59f111f1b605d019,
   0x923f82a4af194f9b, 0xab1c5ed5da6d8118, 0xd807aa98a3030242,
   0x12835b0145706fbe, 0x243185be4ee4b28c, 0x550c7dc3d5ffb4e2,
   0x72be5d74f27b896f, 0x80deb1fe3b1696b1, 0x9bdc06a725c71235,
   0xc19bf174cf692694, 0xe49b69c19ef14ad2, 0xefbe4786384f25e3,
   0xfc19dc68b8cd5b5, 0x240ca1cc77ac9c65, 0x2de92c6f592b0275,
   0x4a7484aa6ea6e483, 0x5cb0a9dcbd41fbd4, 0x76f988da831153b5,
   0x983e5152ee66dfab, 0xa831c66d2db43210, 0xb00327c898fb213f,
   0xbf597fc7beef0ee4, 0xc6e00bf33da88fc2, 0xd5a79147930aa725,
   0x6ca6351e003826f, 0x142929670a0e6e70, 0x27b70a8546d22ffc,
   0x2e1b21385c26c926, 0x4d2c6dfc5ac42aed, 0x53380d139d95b3df,
   0x650a73548baf63de, 0x766a0abb3c77b2a8, 0x81c2c92e47edaee6,
   0x92722c851482353b, 0xa2bfe8a14cf10364, 0xa81a664bbc423001,
   0xc24b8b70d0f89791, 0xc76c51a30654be30, 0xd192e819d6ef5218,
   0xd69906245565a910, 0xf40e35855771202a, 0x106aa07032bbd1b8,
   0x19a4c116b8d2d0c8, 0x1e376c085141ab53, 0x2748774cdf8eeb99,
   0x34b0bcb5e19b48a8, 0x391c0cb3c5c95a63, 0x4ed8aa4ae3418acb,
   0x5b9cca4f7763e373, 0x682e6ff3d6b2b8a3, 0x748f82ee5defb2fc,
   0x78a5636f43172f60, 0x84c87814a1f0ab72, 0x8cc702081a6439ec,
   0x90befffa23631e28, 0xa4506cebde82bde9, 0xbef9a3f7b2c67915,
   0xc67178f2e372532b, 0xca273eceea26619c, 0xd186b8c721c0c207,
   0xeada7dd6cde0eb1e, 0xf57d4f7fee6ed178, 0x6f067aa72176fba,
   0xa637dc5a2c898a6, 0x113f9804bef90dae, 0x1b710b35131c471b,
   0x28db77f523047d84, 0x32caab7b40c72493, 0x3c9ebe0a15c9bebc,
   0x431d67c49c100d4c, 0x4cc5d4becb3e42b6, 0x597f299cfc657e2a,
   0x5fcb6fab3ad6faec, 0x6c44198c4a475817]

/-- Initial hash value of SHA-256. -/
def IV256 : List Nat :=
  [0x6a09e667, 0xbb67ae85, 0x3c6ef372, 0xa54ff53a,
   0x510e527f, 0x9b05688c, 0x1f83d9ab, 0x5be0cd19]

/-- Initial hash value of SHA-384. -/
def IV384 : List Nat :=
  [0xcbbb9d5dc1059ed8, 0x629a292a367cd507,
   0x9159015a3070dd17, 0x152fecd8f70e5939,
   0x67332667ffc00b31, 0x8eb44a8768581511,
   0xdb0c2e0d64f98fa7, 0x47b5481dbefa4fa4]

/-- Initial hash value of SHA-512. -/
def IV512 : List Nat :=
  [0x6a09e667f3bcc908, 0xbb67ae8584caa73b,
   0x3c6ef372fe94f82b, 0xa54ff53a5f1d36f1,
   0x510e527fade682d1, 0x9b05688c2b3e6c1f,
   0x1f83d9abfb41bd6b, 0x5be0cd19137e2179]

/-- The parameters that tell the SHA-2 functions apart. -/
structure Sha2 where
  /-- Bits in a word. -/
  w : Nat
  /-- Rounds of the compression function. -/
  rounds : Nat
  /-- Round constants. -/
  K : List Nat
  /-- Initial hash value. -/
  iv : List Nat
  /-- Rotations of the function written Σ0. -/
  bigSigma0 : Nat × Nat × Nat
  /-- Rotations of the function written Σ1. -/
  bigSigma1 : Nat × Nat × Nat
  /-- Two rotations and a shift of the function written σ0. -/
  smallSigma0 : Nat × Nat × Nat
  /-- Two rotations and a shift of the function written σ1. -/
  smallSigma1 : Nat × Nat × Nat
  /-- Bytes of the digest. -/
  size : Nat

/-- The function SHA-256. -/
def Sha2.sha256 : Sha2 :=
  { w := 32, rounds := 64, K := K256, iv := IV256, bigSigma0 := (2, 13, 22),
    bigSigma1 := (6, 11, 25), smallSigma0 := (7, 18, 3), smallSigma1 := (17, 19, 10),
    size := 32 }

/-- The function SHA-384. -/
def Sha2.sha384 : Sha2 :=
  { w := 64, rounds := 80, K := K512, iv := IV384, bigSigma0 := (28, 34, 39),
    bigSigma1 := (14, 18, 41), smallSigma0 := (1, 8, 7), smallSigma1 := (19, 61, 6),
    size := 48 }

/-- The function SHA-512. -/
def Sha2.sha512 : Sha2 :=
  { w := 64, rounds := 80, K := K512, iv := IV512, bigSigma0 := (28, 34, 39),
    bigSigma1 := (14, 18, 41), smallSigma0 := (1, 8, 7), smallSigma1 := (19, 61, 6),
    size := 64 }

/-- Bytes in a block: 64 for SHA-256, 128 for SHA-384 and SHA-512. -/
def Sha2.blockSize (p : Sha2) : Nat := p.w * 2

/-- Rotation of a `w`-bit word to the right. -/
def rotr (w x n : Nat) : Nat :=
  ((x >>> n) ||| (x <<< (w - n))) % 2 ^ w

/-- The xor of three rotations. -/
def Sha2.bigSigma (p : Sha2) (r : Nat × Nat × Nat) (x : Nat) : Nat :=
  rotr p.w x r.1 ^^^ rotr p.w x r.2.1 ^^^ rotr p.w x r.2.2

/-- The xor of two rotations and a shift. -/
def Sha2.smallSigma (p : Sha2) (r : Nat × Nat × Nat) (x : Nat) : Nat :=
  rotr p.w x r.1 ^^^ rotr p.w x r.2.1 ^^^ (x >>> r.2.2)

/-- The big-endian bytes of `n`, `k` of them. -/
def bigEndian (k n : Nat) : List Nat :=
  (List.range k).map fun i => n / 256 ^ (k - 1 - i) % 256

/-- The number a list of bytes writes in big-endian order. -/
def ofBigEndian (bs : List Nat) : Nat :=
  bs.foldl (fun acc b => acc * 256 + b) 0

/-- A list cut into pieces of `n` elements. -/
def chunks {α : Type} (n : Nat) (l : List α) : List (List α) :=
  (List.range ((l.length + n - 1) / n)).map fun i => (l.drop (i * n)).take n

/-- The message followed by the bit 1, zeros and its length in bits, a whole
number of blocks. -/
def Sha2.pad (p : Sha2) (msg : List Nat) : List Nat :=
  let lenBytes := p.w / 4
  let zeros := (p.blockSize - (msg.length + 1 + lenBytes) % p.blockSize) % p.blockSize
  msg ++ [0x80] ++ List.replicate zeros 0 ++ bigEndian lenBytes (8 * msg.length)

/-- The message schedule of a block. -/
def Sha2.schedule (p : Sha2) (block : List Nat) : List Nat :=
  (List.range (p.rounds - 16)).foldl
    (fun W i =>
      let t := i + 16
      W ++ [(p.smallSigma p.smallSigma1 (W.getD (t - 2) 0) + W.getD (t - 7) 0 +
        p.smallSigma p.smallSigma0 (W.getD (t - 15) 0) + W.getD (t - 16) 0) % 2 ^ p.w])
    ((chunks (p.w / 8) block).map ofBigEndian)

/-- One round of the compression function on the working variables. -/
def Sha2.round (p : Sha2) (st : List Nat) (kw : Nat × Nat) : List Nat :=
  match st with
  | [a, b, c, d, e, f, g, h] =>
    let t1 := (h + p.bigSigma p.bigSigma1 e + ((e &&& f) ^^^ ((2 ^ p.w - 1 - e) &&& g)) +
      kw.1 + kw.2) % 2 ^ p.w
    let t2 := (p.bigSigma p.bigSigma0 a + ((a &&& b) ^^^ (a &&& c) ^^^ (b &&& c))) % 2 ^ p.w
    [(t1 + t2) % 2 ^ p.w, a, b, c, (d + t1) % 2 ^ p.w, e, f, g]
  | _ => st

/-- The hash value after one more block. -/
def Sha2.compress (p : Sha2) (H : List Nat) (block : List Nat) : List Nat :=
  List.zipWith (fun x y => (x + y) % 2 ^ p.w) H
    ((List.zip p.K (p.schedule block)).foldl p.round H)

/-- The digest of a message. -/
def Sha2.sum (p : Sha2) (msg : List Nat) : List Nat :=
  (((chunks p.blockSize (p.pad msg)).foldl p.compress p.iv).flatMap
    (bigEndian (p.w / 8))).take p.size

/-! ## Domain models -/

/-- A `uuid.UUID`, read as a number. -/
abbrev UUID := Nat

/-- The constant `uuid.Nil`. -/
def UUID.Nil : UUID := 0

/-- The struct `jwt.RegisteredClaims`; the dates are whole seconds since the epoch. -/
structure RegisteredClaims where
  Issuer : String
  Subject : String
  Audience : List String
  ExpiresAt : Option Int
  NotBefore : Option Int
  IssuedAt : Option Int
  ID : String
  deriving DecidableEq, Repr

/-- The struct `models.Token`. -/
structure models.Token extends RegisteredClaims where
  UserID : UUID
  IpAddress : String
  RefreshID : Int
  deriving DecidableEq, Repr

/-- The `alg` header of a token. Only the HMAC family accepts a byte-slice key;
`other` carries any name but those three. -/
inductive Alg
  | HS256
  | HS384
  | HS512
  | other (name : String)
  deriving DecidableEq, Repr

/-- Whether a signing method takes the `[]byte` key the key function returns. -/
def Alg.isHMAC : Alg → Bool
  | .HS256 => true
  | .HS384 => true
  | .HS512 => true
  | .other _ => false

/-- The hash function of an HMAC signing method (`crypto.SHA256` for HS256,
`crypto.SHA384` for HS384, `crypto.SHA512` for HS512). It is only consulted for
these three. -/
def Alg.hash : Alg → Sha2
  | .HS256 => .sha256
  | .HS384 => .sha384
  | .HS512 => .sha512
  | .other _ => .sha512

/-- The key block of `hmac.New`: a key longer than a block is replaced by its
digest, and the key is filled with zero bytes to a whole block. -/
def keyBlock (p : Sha2) (key : List Nat) : List Nat :=
  let k := if key.length > p.blockSize then p.sum key else key
  k ++ List.replicate (p.blockSize - k.length) 0

/-- The key block a signing method derives from `[]byte(secret)`. -/
def hmacKey (alg : Alg) (secret : String) : List Nat :=
  keyBlock alg.hash (bytesOf secret)

/-- The third segment of a token: either the HMAC tag of a payload under a key
block, or bytes that are no such tag. -/
inductive Signature
  | mac (alg : Alg) (key : List Nat) (payload : models.Token)
  | junk (bytes : String)
  deriving DecidableEq, Repr

/-- The HMAC tag of a payload under a secret. -/
def Signature.hmac (alg : Alg) (secret : String) (payload : models.Token) : Signature :=
  .mac alg (hmacKey alg secret) payload

/-- A bearer string as presented to the service: either it does not split and
decode into header, claims and signature, or it does. -/
inductive TokenString
  | malformed (raw : String)
  | jwt (alg : Alg) (claims : models.Token) (sig : Signature)
  deriving DecidableEq, Repr

/-- The struct `models.TokensPair`. -/
structure models.TokensPair where
  AccessToken : TokenString
  RefreshToken : TokenString
  deriving DecidableEq, Repr

/-- The struct `models.User`. -/
structure models.User where
  ID : UUID
  Email : String
  deriving DecidableEq, Repr

/-- The struct `models.UserWithRefresh`. -/
structure models.UserWithRefresh where
  ID : UUID
  Email : String
  RefreshID : Int
  deriving DecidableEq, Repr

/-- The struct `dto.User`. -/
structure dto.User where
  Email : String
  deriving DecidableEq, Repr

/-- The struct `config.JWT`; lifetimes are `time.Duration` values (nanoseconds). -/
structure config.JWT where
  AccessTokenLifetime : Int
  RefreshTokenLifetime : Int
  AccessSecret : String
  RefreshSecret : String
  deriving DecidableEq, Repr

/-! ## The database -/

/-- Modelled from the spec: a row of the user table (the migrations that declare
the tables are not among the sources). An identity is an id and an email. -/
structure UserRow where
  id : UUID
  email : String
  deriving DecidableEq, Repr

/-- Modelled from the spec: a row of the refresh table, a generation id and the
id of its owner. -/
structure RefreshRow where
  refresh_id : Int
  user_id : UUID
  deriving DecidableEq, Repr

/-- The content of the two tables. -/
structure Store where
  user : List UserRow
  refresh : List RefreshRow
  deriving DecidableEq, Repr

/-! ## The environment of one call -/

/-- What one service call reads from its surroundings. -/
structure Env where
  /-- Reading of `time.Now()` inside `DecodeToken`. -/
  nowDecode : Int
  /-- Reading of `time.Now()` when the access token is created. -/
  nowAccess : Int
  /-- Reading of `time.Now()` when the refresh token is created. -/
  nowRefresh : Int
  /-- Failure of `pool.Begin`. -/
  beginErr : Option Error
  /-- Failure of the INSERT into the user table for a cause other than a stored
  row with the same email. -/
  insertUserErr : Option Error
  /-- The id the database gives the inserted user row. -/
  genUserID : UUID
  /-- Failure of the SELECT of a user joined with its refresh row. -/
  selectUserErr : Option Error
  /-- Failure of the DELETE on the refresh table. -/
  deleteRefreshErr : Option Error
  /-- Failure of the INSERT into the refresh table. -/
  insertRefreshErr : Option Error
  /-- The refresh id the database gives the inserted refresh row. -/
  genRefreshID : Int
  /-- Failure of `token.SignedString` for the access token. -/
  signAccessErr : Option Error
  /-- Failure of `token.SignedString` for the refresh token. -/
  signRefreshErr : Option Error
  /-- Failure of `tx.Commit`. -/
  commitErr : Option Error
  deriving DecidableEq, Repr

/-- No round trip to the database and no signing fails during the call. -/
def Env.healthy (env : Env) : Prop :=
  env.beginErr = none ∧ env.insertUserErr = none ∧ env.selectUserErr = none ∧
  env.deleteRefreshErr = none ∧ env.insertRefreshErr = none ∧
  env.signAccessErr = none ∧ env.signRefreshErr = none ∧ env.commitErr = none

instance (env : Env) : Decidable env.healthy := by
  unfold Env.healthy; infer_instance

/-! ## Codec (`internal/lib/jwt/jwt.go`) -/

/-- Nanoseconds in a second. -/
def second : Int := 1000000000

/-- The value of `time.Now().Add(expires).Unix()` when the clock reads `now`. -/
def expiryUnix (now expires : Int) : Int := (now + expires) / second

/-- The claims `CreateToken` puts in the token. -/
def newClaims (now : Int) (userID : UUID) (ipAddress : String) (refreshID : Int)
    (expires : Int) : models.Token :=
  { Issuer := "", Subject := "", Audience := [], ExpiresAt := some (expiryUnix now expires),
    NotBefore := none, IssuedAt := none, ID := "",
    UserID := userID, IpAddress := ipAddress, RefreshID := refreshID }

/-- The method `token.SignedString([]byte(secret))` of an HS512 token. -/
def SignedString (signErr : Option Error) (claims : models.Token) (secret : String) :
    Except Error TokenString :=
  match signErr with
  | some err => .error err
  | none => .ok (.jwt .HS512 claims (.hmac .HS512 secret claims))

/-- The function `jwt.CreateToken`. -/
def CreateToken (now : Int) (signErr : Option Error) (userID : UUID) (ipAddress : String)
    (refreshID : Int) (secret : String) (expires : Int) : Except Error TokenString :=
  match SignedString signErr (newClaims now userID ipAddress refreshID expires) secret with
  | .error err => .error err
  | .ok tokenString => .ok tokenString

/-- Claim validation of golang-jwt v5 with default options: `exp`, when present,
must be after now; `nbf`, when present, must not be after now. -/
def validateClaims (now : Int) (claims : models.Token) : Except ParseError Unit :=
  match claims.ExpiresAt with
  | some exp =>
    if now < exp * second then
      match claims.NotBefore with
      | some nbf => if now < nbf * second then .error .notValidYet else .ok ()
      | none => .ok ()
    else .error .expired
  | none =>
    match claims.NotBefore with
    | some nbf => if now < nbf * second then .error .notValidYet else .ok ()
    | none => .ok ()

/-- The names, other than the HMAC family, of the signing methods golang-jwt v5
registers. Their `Verify` refuses a `[]byte` key. -/
def registeredMethods : List String :=
  ["RS256", "RS384", "RS512", "PS256", "PS384", "PS512", "ES256", "ES384", "ES512",
   "EdDSA", "none"]

/-- The function `jwt.ParseWithClaims(token, &model, keyFunc)` of golang-jwt v5,
where `keyFunc` returns `[]byte(secret)`. A header naming no registered method
makes the token unverifiable; a method that refuses the key, or a tag that is
not the HMAC of the claims under the key, makes the signature invalid. -/
def ParseWithClaims (now : Int) (token : TokenString) (secret : String) :
    Except ParseError models.Token :=
  match token with
  | .malformed _ => .error .malformed
  | .jwt alg claims sig =>
    if alg.isHMAC then
      if sig = .hmac alg secret claims then
        match validateClaims now claims with
        | .error err => .error err
        | .ok _ => .ok claims
      else .error .signatureInvalid
    else
      match alg with
      | .other name =>
        if registeredMethods.contains name then .error .signatureInvalid
        else .error .unverifiable
      | _ => .error .signatureInvalid

/-- The function `jwt.DecodeToken`. -/
def DecodeToken (now : Int) (token : TokenString) (secret : String) :
    Except Error models.Token :=
  match ParseWithClaims now token secret with
  | .error err => .error (.decode err)
  | .ok model => .ok model

/-! ## Configuration (`internal/config/config.go`) -/

/-- The predicate `unicode.IsSpace`. -/
def isSpace (c : Char) : Bool :=
  c = '\t' || c = '\n' || c.val = 0x0B || c.val = 0x0C || c = '\r' || c = ' ' ||
  c.val = 0x85 || c.val = 0xA0 || c.val = 0x1680 || (0x2000 ≤ c.val && c.val ≤ 0x200A) ||
  c.val = 0x2028 || c.val = 0x2029 || c.val = 0x202F || c.val = 0x205F || c.val = 0x3000

/-- The function `strings.TrimSpace`. -/
def TrimSpace (s : String) : String :=
  String.mk ((s.data.dropWhile isSpace).reverse.dropWhile isSpace).reverse

/-- The `jwt` section of the configuration file as `cleanenv.ReadConfig` decodes
it into `config.JWT`: the two tagged lifetimes, and the two secrets, which carry
no yaml tag and so answer to the lower-cased field names. A key the file does
not have leaves its field as it was. -/
structure ConfigFile where
  /-- The key `jwt.access_token_lifetime`. -/
  access_token_lifetime : Int
  /-- The key `jwt.refresh_token_lifetime`. -/
  refresh_token_lifetime : Int
  /-- The key `jwt.accesssecret`, when the file has it. -/
  accesssecret : Option String
  /-- The key `jwt.refreshsecret`, when the file has it. -/
  refreshsecret : Option String
  deriving DecidableEq, Repr

/-- What `MustLoad` finds on the machine it starts on. -/
structure Host where
  /-- Whether `godotenv.Load(".env")` succeeds. -/
  dotenvLoaded : Bool
  /-- The value of `os.Getenv("CONFIG_PATH")`. -/
  CONFIG_PATH : String
  /-- The value of `os.Getenv("ACCESS_SECRET")`. -/
  ACCESS_SECRET : String
  /-- The value of `os.Getenv("REFRESH_SECRET")`. -/
  REFRESH_SECRET : String
  /-- Whether the file at the configuration path exists. -/
  configFileExists : Bool
  /-- What `cleanenv.ReadConfig` decodes from the file; `none` when it fails. -/
  readConfig : Option ConfigFile
  deriving DecidableEq, Repr

/-- The function `config.MustLoad`, restricted to the `JWT` section it returns;
`none` stands for `os.Exit(1)`. The secrets of the environment are stored first
and `cleanenv.ReadConfig` then decodes the file over them. -/
def MustLoad (host : Host) : Option config.JWT :=
  if !host.dotenvLoaded then none
  else
    let configPath := TrimSpace host.CONFIG_PATH
    let accessSecret := TrimSpace host.ACCESS_SECRET
    let refreshSecret := TrimSpace host.REFRESH_SECRET
    if configPath = "" || accessSecret = "" || refreshSecret = "" then none
    else if !host.configFileExists then none
    else
      match host.readConfig with
      | none => none
      | some file =>
        some { AccessTokenLifetime := file.access_token_lifetime,
               RefreshTokenLifetime := file.refresh_token_lifetime,
               AccessSecret := file.accesssecret.getD accessSecret,
               RefreshSecret := file.refreshsecret.getD refreshSecret }

/-! ## Transactions -/

/-- The call `pool.Begin`: the transaction starts from the committed store. -/
def Begin (env : Env) (db : Store) : Except Error Store :=
  match env.beginErr with
  | some err => .error err
  | none => .ok db

/-- The call `tx.Commit`: the working copy becomes the committed store. -/
def Commit (env : Env) (tx : Store) : Except Error Store :=
  match env.commitErr with
  | some err => .error err
  | none => .ok tx

/-! ## SQL statements -/

/-- Modelled from the spec: `INSERT INTO public.user (email) VALUES ($1) RETURNING id`
on a table whose email column carries a uniqueness constraint. -/
def insertUser (env : Env) (tx : Store) (email : String) : Except Error (UUID × Store) :=
  match env.insertUserErr with
  | some err => .error err
  | none =>
    if tx.user.any (fun u => u.email = email) then
      .error (.pg UniqueViolation "duplicate key value violates unique constraint")
    else
      .ok (env.genUserID, { tx with user := tx.user ++ [{ id := env.genUserID, email := email }] })

/-- The rows of `public.user AS u JOIN refresh AS r ON u.id = r.user_id`. -/
def joinUserRefresh (tx : Store) : List models.UserWithRefresh :=
  tx.user.flatMap fun u =>
    (tx.refresh.filter fun r => u.id = r.user_id).map fun r =>
      { ID := u.id, Email := u.email, RefreshID := r.refresh_id }

/-- The query `SELECT id, email, refresh_id FROM public.user AS u JOIN refresh AS r
ON u.id = r.user_id WHERE id = $1`, scanned with `QueryRow`: the first row, or
`pgx.ErrNoRows`. -/
def selectUser (env : Env) (tx : Store) (id : UUID) : Except Error models.UserWithRefresh :=
  match env.selectUserErr with
  | some err => .error err
  | none =>
    match (joinUserRefresh tx).find? (fun row => row.ID = id) with
    | none => .error .errNoRows
    | some row => .ok row

/-- The statement `INSERT INTO refresh (user_id) VALUES ($1) RETURNING refresh_id`. -/
def insertRefresh (env : Env) (tx : Store) (userID : UUID) : Except Error (Int × Store) :=
  match env.insertRefreshErr with
  | some err => .error err
  | none =>
    .ok (env.genRefreshID,
      { tx with refresh := tx.refresh ++ [{ refresh_id := env.genRefreshID, user_id := userID }] })

/-- The statement `DELETE FROM refresh WHERE user_id = $1`. -/
def deleteRefresh (env : Env) (tx : Store) (userID : UUID) : Except Error Store :=
  match env.deleteRefreshErr with
  | some err => .error err
  | none => .ok { tx with refresh := tx.refresh.filter fun r => r.user_id ≠ userID }

/-! ## Storage adapters (`internal/storage/user`, `internal/storage/refresh`) -/

/-- The method `UserDB.Create`. -/
def UserDB.Create (env : Env) (tx : Store) (user : dto.User) : Except Error (UUID × Store) :=
  match insertUser env tx user.Email with
  | .error (.pg code message) =>
    if code = UniqueViolation then .error (.new "user with this email already exists")
    else .error (.pg code message)
  | .error err => .error err
  | .ok (id, tx1) => .ok (id, tx1)

/-- The method `UserDB.GetUserByID`. -/
def UserDB.GetUserByID (env : Env) (tx : Store) (id : UUID) :
    Except Error models.UserWithRefresh :=
  match selectUser env tx id with
  | .error .errNoRows => .error (.new "user not found")
  | .error err => .error err
  | .ok user => .ok user

/-- The method `RefreshDB.Create`. -/
def RefreshDB.Create (env : Env) (tx : Store) (userID : UUID) : Except Error (Int × Store) :=
  match insertRefresh env tx userID with
  | .error err => .error err
  | .ok (id, tx1) => .ok (id, tx1)

/-- The method `RefreshDB.Delete`. -/
def RefreshDB.Delete (env : Env) (tx : Store) (userID : UUID) : Except Error Store :=
  match deleteRefresh env tx userID with
  | .error err => .error err
  | .ok tx1 => .ok tx1

/-! ## Session service (`internal/services/auth/auth.go`)

Every operation returns its Go result, the committed store after the call and
the way its transaction ended. Each method defers `tx.Rollback` right after
`pool.Begin`; a return before `tx.Commit` has succeeded leaves the transaction
to that deferred call, which discards the working copy. -/

/-- How the transaction of a call ended. -/
inductive TxEnd
  /-- The call returned before `pool.Begin` succeeded. -/
  | notOpened
  /-- The call returned without a successful `tx.Commit`; the deferred
  `tx.Rollback` closed the transaction. -/
  | rolledBack
  /-- The call returned after `tx.Commit` succeeded. -/
  | committed
  deriving DecidableEq, Repr

/-- What a service call leaves behind. -/
structure Outcome (α : Type) where
  /-- The value and error the method returns. -/
  result : Except Error α
  /-- The committed store after the call. -/
  store : Store
  /-- How the transaction ended. -/
  tx : TxEnd
  deriving DecidableEq, Repr

/-- The method `AuthService.CreateUser`. -/
def AuthService.CreateUser (_cfg : config.JWT) (env : Env) (db : Store) (user : dto.User)
    (_ipAddress : String) : Outcome UUID :=
  match Begin env db with
  | .error err => { result := .error err, store := db, tx := .notOpened }
  | .ok tx =>
    match UserDB.Create env tx user with
    | .error err => { result := .error err, store := db, tx := .rolledBack }
    | .ok (userID, tx1) =>
      match RefreshDB.Create env tx1 userID with
      | .error err => { result := .error err, store := db, tx := .rolledBack }
      | .ok (_, tx2) =>
        match Commit env tx2 with
        | .error err => { result := .error err, store := db, tx := .rolledBack }
        | .ok db1 => { result := .ok userID, store := db1, tx := .committed }

/-- The method `AuthService.GetTokens`. It has no `tx.Commit`: also its
successful return leaves the transaction to the deferred `tx.Rollback`. -/
def AuthService.GetTokens (cfg : config.JWT) (env : Env) (db : Store) (userID : UUID)
    (ipAddress : String) : Outcome models.TokensPair :=
  match Begin env db with
  | .error err => { result := .error err, store := db, tx := .notOpened }
  | .ok tx =>
    match UserDB.GetUserByID env tx userID with
    | .error err => { result := .error err, store := db, tx := .rolledBack }
    | .ok user =>
      match CreateToken env.nowAccess env.signAccessErr user.ID ipAddress user.RefreshID
          cfg.AccessSecret cfg.AccessTokenLifetime with
      | .error err => { result := .error err, store := db, tx := .rolledBack }
      | .ok accT =>
        match CreateToken env.nowRefresh env.signRefreshErr user.ID ipAddress user.RefreshID
            cfg.RefreshSecret cfg.RefreshTokenLifetime with
        | .error err => { result := .error err, store := db, tx := .rolledBack }
        | .ok refT =>
          { result := .ok { AccessToken := accT, RefreshToken := refT }, store := db,
            tx := .rolledBack }

/-- The method `AuthService.RefreshTokens`. A differing `ipAddress` is only logged. -/
def AuthService.RefreshTokens (cfg : config.JWT) (env : Env) (db : Store)
    (refreshToken : TokenString) (ipAddress : String) : Outcome models.TokensPair :=
  match DecodeToken env.nowDecode refreshToken cfg.RefreshSecret with
  | .error _ => { result := .error (.new "unauthorized"), store := db, tx := .notOpened }
  | .ok decodeToken =>
    match Begin env db with
    | .error err => { result := .error err, store := db, tx := .notOpened }
    | .ok tx =>
      match UserDB.GetUserByID env tx decodeToken.UserID with
      | .error err => { result := .error err, store := db, tx := .rolledBack }
      | .ok user =>
        -- `if decodeToken.IpAddress != ipAddress` writes a log line and goes on
        if decodeToken.RefreshID ≠ user.RefreshID then
          { result := .error (.new "unauthorized"), store := db, tx := .rolledBack }
        else
          match RefreshDB.Delete env tx user.ID with
          | .error err => { result := .error err, store := db, tx := .rolledBack }
          | .ok tx1 =>
            match RefreshDB.Create env tx1 user.ID with
            | .error err => { result := .error err, store := db, tx := .rolledBack }
            | .ok (newRefreshID, tx2) =>
              match CreateToken env.nowAccess env.signAccessErr user.ID ipAddress newRefreshID
                  cfg.AccessSecret cfg.AccessTokenLifetime with
              | .error err => { result := .error err, store := db, tx := .rolledBack }
              | .ok accT =>
                match CreateToken env.nowRefresh env.signRefreshErr user.ID ipAddress
                    newRefreshID cfg.RefreshSecret cfg.RefreshTokenLifetime with
                | .error err => { result := .error err, store := db, tx := .rolledBack }
                | .ok refT =>
                  match Commit env tx2 with
                  | .error err => { result := .error err, store := db, tx := .rolledBack }
                  | .ok db1 =>
                    { result := .ok { AccessToken := accT, RefreshToken := refT },
                      store := db1, tx := .committed }

/-- The method `AuthService.GetCurrentUser`. It has no `tx.Commit`: also its
successful return leaves the transaction to the deferred `tx.Rollback`. -/
def AuthService.GetCurrentUser (cfg : config.JWT) (env : Env) (db : Store)
    (token : TokenString) : Outcome models.User :=
  match DecodeToken env.nowDecode token cfg.AccessSecret with
  | .error _ => { result := .error (.new "unauthorized"), store := db, tx := .notOpened }
  | .ok decodeToken =>
    match Begin env db with
    | .error err => { result := .error err, store := db, tx := .notOpened }
    | .ok tx =>
      match UserDB.GetUserByID env tx decodeToken.UserID with
      | .error err => { result := .error err, store := db, tx := .rolledBack }
      | .ok user =>
        { result := .ok { ID := user.ID, Email := user.Email }, store := db,
          tx := .rolledBack }

/-! ## Lookup of a user joined with its refresh row -/

/-- The first row the join yields for an id: the first user row with that id,
paired with the first refresh row of that owner; none when either is missing. -/
def firstJoined (tx : Store) (id : UUID) : Option models.UserWithRefresh :=
  match tx.user.find? (fun u => u.id = id), tx.refresh.find? (fun r => r.user_id = id) with
  | some u, some r => some { ID := u.id, Email := u.email, RefreshID := r.refresh_id }
  | _, _ => none

/-- The store after the refresh rows of `userID` are replaced by one row with
refresh id `g`. -/
def rotated (db : Store) (userID : UUID) (g : Int) : Store :=
  { user := db.user,
    refresh := (db.refresh.filter fun r => r.user_id ≠ userID) ++
      [{ refresh_id := g, user_id := userID }] }

/-- The token `CreateToken` returns when signing succeeds. -/
def issued (now : Int) (userID : UUID) (ipAddress : String) (refreshID : Int)
    (secret : String) (expires : Int) : TokenString :=
  .jwt .HS512 (newClaims now userID ipAddress refreshID expires)
    (.hmac .HS512 secret (newClaims now userID ipAddress refreshID expires))

/-- The store after a user row with id `uid` and a refresh row with refresh id
`g` for it are appended. -/
def created (db : Store) (uid : UUID) (email : String) (g : Int) : Store :=
  { user := db.user ++ [{ id := uid, email := email }],
    refresh := db.refresh ++ [{ refresh_id := g, user_id := uid }] }

/-- Number of refresh rows owned by `id`. -/
def refreshRowsOf (db : Store) (id : UUID) : Nat :=
  (db.refresh.filter fun r => r.user_id = id).length

/-- Every user row has exactly one refresh row. -/
def OneRefreshPerUser (db : Store) : Prop :=
  ∀ u ∈ db.user, refreshRowsOf db u.id = 1

instance (db : Store) : Decidable (OneRefreshPerUser db) := by
  unfold OneRefreshPerUser; infer_instance

/-- The id the database assigns to a new user row is in use nowhere in the store. -/
def Env.freshUserID (env : Env) (db : Store) : Prop :=
  (∀ u ∈ db.user, u.id ≠ env.genUserID) ∧ (∀ r ∈ db.refresh, r.user_id ≠ env.genUserID)

instance (env : Env) (db : Store) : Decidable (env.freshUserID db) := by
  unfold Env.freshUserID; infer_instance

/-! ## Sample data -/

/-- A configuration with two different secrets. -/
def Sample.cfg : config.JWT :=
  { AccessTokenLifetime := 900 * second, RefreshTokenLifetime := 3600 * second,
    AccessSecret := "access-secret", RefreshSecret := "refresh-secret" }

/-- A call during which nothing fails, at clock reading `now`, in which the
database assigns the user id `uid` and the refresh id `gen`. -/
def Sample.env (now : Int) (uid : UUID) (gen : Int) : Env :=
  { nowDecode := now, nowAccess := now, nowRefresh := now, beginErr := none,
    insertUserErr := none, genUserID := uid, selectUserErr := none, deleteRefreshErr := none,
    insertRefreshErr := none, genRefreshID := gen, signAccessErr := none,
    signRefreshErr := none, commitErr := none }

/-- A store with one user and its refresh row. -/
def Sample.db : Store :=
  { user := [{ id := 7, email := "a@x.com" }], refresh := [{ refresh_id := 1, user_id := 7 }] }

/-- The claims of the refresh token issued to user 7 at instant 0. -/
def Sample.refreshClaims : models.Token :=
  newClaims 0 7 "10.0.0.1" 1 (3600 * second)

/-- The refresh token issued to user 7 at instant 0. -/
def Sample.refreshToken : TokenString :=
  issued 0 7 "10.0.0.1" 1 "refresh-secret" (3600 * second)

/-- A host whose two secrets are the same text. -/
def Sample.hostSameSecret : Host :=
  { dotenvLoaded := true, CONFIG_PATH := "config/local.yaml", ACCESS_SECRET := "s3cret",
    REFRESH_SECRET := "s3cret", configFileExists := true,
    readConfig := some { access_token_lifetime := 900 * second,
                         refresh_token_lifetime := 3600 * second,
                         accesssecret := none, refreshsecret := none } }

/-- The configuration read on that host. -/
def Sample.cfgSameSecret : config.JWT :=
  { AccessTokenLifetime := 900 * second, RefreshTokenLifetime := 3600 * second,
    AccessSecret := "s3cret", RefreshSecret := "s3cret" }

/-- The sample refresh claims under a tag that is no HMAC of them. -/
def Sample.forgedToken : TokenString :=
  .jwt .HS512 Sample.refreshClaims (.junk "AAAA")

/-- A validly signed refresh token of user 7 that carries the refresh id 0. -/
def Sample.staleToken : TokenString :=
  issued 0 7 "10.0.0.1" 0 "refresh-secret" (3600 * second)

/-- The access token issued to user 7 at instant 0. -/
def Sample.accessToken : TokenString :=
  issued 0 7 "10.0.0.1" 1 "access-secret" (900 * second)

/-- The sample access claims under a tag that is no HMAC of them. -/
def Sample.forgedAccessToken : TokenString :=
  .jwt .HS512 (newClaims 0 7 "10.0.0.1" 1 (900 * second)) (.junk "AAAA")

/-- A host whose configuration file carries both secrets: the refresh secret of
the file is the access secret followed by a zero byte. -/
def Sample.hostFileSecrets : Host :=
  { dotenvLoaded := true, CONFIG_PATH := "config/local.yaml", ACCESS_SECRET := "from-env-a",
    REFRESH_SECRET := "from-env-r", configFileExists := true,
    readConfig := some { access_token_lifetime := 900 * second,
                         refresh_token_lifetime := 3600 * second,
                         accesssecret := some "s3cret",
                         refreshsecret := some "s3cret\x00" } }

/-- The configuration read on that host. -/
def Sample.cfgPaddedSecret : config.JWT :=
  { AccessTokenLifetime := 900 * second, RefreshTokenLifetime := 3600 * second,
    AccessSecret := "s3cret", RefreshSecret := "s3cret\x00" }

/-! # Theorems -/

theorem find_join_rows (refresh : List RefreshRow) (id : UUID) (users : List UserRow) :
    (users.flatMap fun u =>
        (refresh.filter fun r => u.id = r.user_id).map fun r =>
          ({ ID := u.id, Email := u.email, RefreshID := r.refresh_id } :
            models.UserWithRefresh)).find? (fun row => row.ID = id)
      = firstJoined { user := users, refresh := refresh } id := by
  induction users with
  | nil => simp [firstJoined]
  | cons u us ih =>
    rw [List.flatMap_cons, List.find?_append, ih]
    by_cases hu : u.id = id
    · subst hu
      cases hr : refresh.find? (fun r => r.user_id = u.id) with
      | none =>
        have hnone : ∀ r ∈ refresh, ¬ r.user_id = u.id := by simpa using hr
        have hfil : (refresh.filter fun r => u.id = r.user_id) = [] := by
          rw [List.filter_eq_nil_iff]
          intro r hmem
          have := hnone r hmem
          simp only [decide_eq_true_eq]
          exact fun h => this h.symm
        simp [firstJoined, hfil, hr]
      | some r =>
        have hfind : (refresh.filter fun r => u.id = r.user_id).find?
            ((fun row : models.UserWithRefresh => decide (row.ID = u.id)) ∘
              fun r => { ID := u.id, Email := u.email, RefreshID := r.refresh_id })
            = some r := by
          rw [List.find?_filter]
          rw [← hr]
          congr 1
          funext x
          simp [eq_comm]
        rw [List.find?_map, hfind]
        simp [firstJoined, hr]
    · have hnone : ((refresh.filter fun r => u.id = r.user_id).map fun r =>
          ({ ID := u.id, Email := u.email, RefreshID := r.refresh_id } :
            models.UserWithRefresh)).find? (fun row => row.ID = id) = none := by
        simp [hu]
      rw [hnone]
      simp [firstJoined, hu]

theorem find_join (tx : Store) (id : UUID) :
    (joinUserRefresh tx).find? (fun row => row.ID = id) = firstJoined tx id := by
  cases tx with
  | mk users refresh => exact find_join_rows refresh id users


/-! ## Hash functions and key blocks -/

set_option maxRecDepth 100000 in
/-- The digest FIPS 180-4 gives for the message "abc" under SHA-256. -/
theorem sha256_abc :
    Sha2.sha256.sum (bytesOf "abc") =
    [186, 120, 22, 191, 143, 1, 207, 234, 65, 65, 64, 222, 93, 174, 34, 35,
     176, 3, 97, 163, 150, 23, 122, 156, 180, 16, 255, 97, 242, 0, 21, 173] := by
  decide

set_option maxRecDepth 100000 in
/-- The digest FIPS 180-4 gives for the message "abc" under SHA-384. -/
theorem sha384_abc :
    Sha2.sha384.sum (bytesOf "abc") =
    [203, 0, 117, 63, 69, 163, 94, 139, 181, 160, 61, 105, 154, 198, 80, 7,
     39, 44, 50, 171, 14, 222, 209, 99, 26, 139, 96, 90, 67, 255, 91, 237,
     128, 134, 7, 43, 161, 231, 204, 35, 88, 186, 236, 161, 52, 200, 37, 167] := by
  decide

set_option maxRecDepth 100000 in
/-- The digest FIPS 180-4 gives for the message "abc" under SHA-512. -/
theorem sha512_abc :
    Sha2.sha512.sum (bytesOf "abc") =
    [221, 175, 53, 161, 147, 97, 122, 186, 204, 65, 115, 73, 174, 32, 65, 49,
     18, 230, 250, 78, 137, 169, 126, 162, 10, 158, 238, 230, 75, 85, 211, 154,
     33, 146, 153, 42, 39, 79, 193, 168, 54, 186, 60, 35, 163, 254, 235, 189,
     69, 77, 68, 35, 100, 60, 232, 14, 42, 154, 201, 79, 165, 76, 164, 159] := by
  decide

set_option maxRecDepth 100000 in
/-- The SHA-512 digest of a message of two blocks, 200 bytes `a`. -/
theorem sha512_two_blocks :
    Sha2.sha512.sum (List.replicate 200 97) =
    [75, 17, 69, 156, 51, 245, 42, 34, 238, 130, 54, 120, 39, 20, 193, 80,
     163, 178, 198, 9, 148, 233, 172, 238, 23, 254, 104, 148, 122, 62, 103, 137,
     243, 30, 118, 104, 57, 69, 146, 218, 123, 239, 130, 124, 221, 202, 136, 196,
     230, 248, 110, 77, 247, 237, 26, 230, 203, 167, 31, 62, 152, 250, 238, 159] := by
  decide

/-- A secret and the same secret followed by a zero byte are one HMAC key. -/
theorem hmacKey_zero_padded :
    hmacKey .HS512 "s3cret" = hmacKey .HS512 "s3cret\x00" := by
  decide

set_option maxRecDepth 100000 in
/-- A secret longer than the block enters HMAC through its digest: the key block
of 200 bytes `a` is their SHA-512 digest followed by 64 zero bytes. -/
theorem hmacKey_long_secret :
    hmacKey .HS512 (String.mk (List.replicate 200 'a')) =
      Sha2.sha512.sum (List.replicate 200 97) ++ List.replicate 64 0 := by
  decide

/-! ## Configuration -/

/-- The configuration file overwrites the secrets of the environment. -/
theorem MustLoad_file_overrides :
    MustLoad Sample.hostFileSecrets = some Sample.cfgPaddedSecret := by
  decide

/-! ## Storage adapters -/

theorem GetUserByID_of_healthy (env : Env) (tx : Store) (id : UUID)
    (h : env.selectUserErr = none) :
    UserDB.GetUserByID env tx id =
      match firstJoined tx id with
      | none => .error (.new "user not found")
      | some row => .ok row := by
  unfold UserDB.GetUserByID selectUser
  rw [h, find_join]
  cases firstJoined tx id <;> rfl

theorem GetUserByID_ok (env : Env) (tx : Store) (id : UUID) (user : models.UserWithRefresh)
    (h : UserDB.GetUserByID env tx id = .ok user) : firstJoined tx id = some user := by
  unfold UserDB.GetUserByID selectUser at h
  rw [find_join] at h
  cases hs : env.selectUserErr with
  | some err =>
    rw [hs] at h
    cases err <;> simp at h
  | none =>
    rw [hs] at h
    cases hj : firstJoined tx id with
    | none => rw [hj] at h; simp at h
    | some row => rw [hj] at h; simp at h; rw [h]

theorem firstJoined_ID (tx : Store) (id : UUID) (row : models.UserWithRefresh)
    (h : firstJoined tx id = some row) : row.ID = id := by
  unfold firstJoined at h
  split at h
  · rename_i u r hu hr
    have := List.find?_some hu
    simp at h this
    rw [← h]
    exact this
  · simp at h

theorem firstJoined_rotated (db : Store) (id : UUID) (g : Int) (row : models.UserWithRefresh)
    (h : firstJoined db id = some row) :
    firstJoined (rotated db id g) id = some { ID := id, Email := row.Email, RefreshID := g } := by
  unfold firstJoined at h
  split at h
  · rename_i u r hu hr
    have hid := List.find?_some hu
    simp at h hid
    have hfilter : (db.refresh.filter fun r => r.user_id ≠ id).find?
        (fun r => r.user_id = id) = none := by
      simp
    unfold firstJoined rotated
    simp only [List.find?_append, hfilter, hu]
    simp [hid, ← h]
  · simp at h

/-! ## Codec -/

theorem CreateToken_ok (now : Int) (userID : UUID) (ipAddress : String) (refreshID : Int)
    (secret : String) (expires : Int) :
    CreateToken now none userID ipAddress refreshID secret expires =
      .ok (issued now userID ipAddress refreshID secret expires) := rfl

theorem CreateToken_inv (now : Int) (signErr : Option Error) (userID : UUID)
    (ipAddress : String) (refreshID : Int) (secret : String) (expires : Int)
    (tok : TokenString)
    (h : CreateToken now signErr userID ipAddress refreshID secret expires = .ok tok) :
    signErr = none ∧ tok = issued now userID ipAddress refreshID secret expires := by
  cases signErr with
  | some err => simp [CreateToken, SignedString] at h
  | none => simp [CreateToken, SignedString, issued] at h ⊢; exact h.symm

theorem DecodeToken_not_hmac (now : Int) (alg : Alg) (claims : models.Token)
    (sig : Signature) (secret : String) (ha : ¬ alg.isHMAC = true) :
    ∃ cause, DecodeToken now (.jwt alg claims sig) secret = .error (.decode cause) := by
  cases alg with
  | HS256 => simp [Alg.isHMAC] at ha
  | HS384 => simp [Alg.isHMAC] at ha
  | HS512 => simp [Alg.isHMAC] at ha
  | other name =>
    by_cases hr : name ∈ registeredMethods
    · exact ⟨.signatureInvalid, by simp [DecodeToken, ParseWithClaims, Alg.isHMAC, hr]⟩
    · exact ⟨.unverifiable, by simp [DecodeToken, ParseWithClaims, Alg.isHMAC, hr]⟩

theorem DecodeToken_ok_claims (now : Int) (tok : TokenString) (secret : String)
    (model : models.Token) (h : DecodeToken now tok secret = .ok model) :
    ∃ alg, alg.isHMAC = true ∧ tok = .jwt alg model (.hmac alg secret model) ∧
      validateClaims now model = .ok () := by
  unfold DecodeToken ParseWithClaims at h
  cases tok with
  | malformed raw => simp at h
  | jwt alg claims sig =>
    simp only at h
    by_cases ha : alg.isHMAC = true
    · by_cases hs : sig = .hmac alg secret claims
      · cases hv : validateClaims now claims with
        | error err => simp [ha, hs, hv] at h
        | ok u =>
          simp [ha, hs, hv] at h
          subst h
          exact ⟨alg, ha, by rw [hs], hv⟩
      · simp [ha, hs] at h
    · obtain ⟨cause, hc⟩ := DecodeToken_not_hmac now alg claims sig secret ha
      unfold DecodeToken ParseWithClaims at hc
      rw [hc] at h
      simp at h

theorem DecodeToken_wrong_secret (now : Int) (tok : TokenString) (s1 s2 : String)
    (model : models.Token) (hne : ∀ alg, hmacKey alg s1 ≠ hmacKey alg s2)
    (h : DecodeToken now tok s1 = .ok model) :
    ∃ err, DecodeToken now tok s2 = .error err := by
  obtain ⟨alg, ha, htok, _⟩ := DecodeToken_ok_claims now tok s1 model h
  subst htok
  refine ⟨.decode .signatureInvalid, ?_⟩
  have : ¬ (Signature.hmac alg s1 model = Signature.hmac alg s2 model) := by
    intro heq
    unfold Signature.hmac at heq
    injection heq with _ hk _
    exact hne alg hk
  simp [DecodeToken, ParseWithClaims, ha, this]

theorem validateClaims_newClaims (u now : Int) (userID : UUID) (ip : String) (rid : Int)
    (expires : Int) :
    validateClaims u (newClaims now userID ip rid expires) =
      if u < expiryUnix now expires * second then .ok () else .error .expired := by
  simp [validateClaims, newClaims]

theorem DecodeToken_issued (u now : Int) (userID : UUID) (ip : String) (rid : Int)
    (secret : String) (expires : Int) :
    DecodeToken u (issued now userID ip rid secret expires) secret =
      if u < expiryUnix now expires * second then .ok (newClaims now userID ip rid expires)
      else .error (.decode .expired) := by
  unfold DecodeToken ParseWithClaims issued
  simp only [Alg.isHMAC, if_true, validateClaims_newClaims]
  by_cases h : u < expiryUnix now expires * second <;> simp [h]

theorem find_user_of_nodup (users : List UserRow) (u : UserRow)
    (hpk : (users.map fun x => x.id).Nodup) (hu : u ∈ users) :
    users.find? (fun x => x.id = u.id) = some u := by
  induction users with
  | nil => simp at hu
  | cons x xs ih =>
    simp only [List.map_cons, List.nodup_cons] at hpk
    rcases List.mem_cons.mp hu with hx | hxs
    · subst hx
      simp
    · have hne : ¬ x.id = u.id := by
        intro he
        apply hpk.1
        rw [he]
        exact List.mem_map_of_mem (fun x => x.id) hxs
      rw [List.find?_cons_of_neg _ (by simpa using hne)]
      exact ih hpk.2 hxs

theorem firstJoined_of_nodup (db : Store) (u : UserRow) (row : models.UserWithRefresh)
    (hpk : (db.user.map fun x => x.id).Nodup) (hu : u ∈ db.user)
    (h : firstJoined db u.id = some row) : row.ID = u.id ∧ row.Email = u.email := by
  unfold firstJoined at h
  rw [find_user_of_nodup db.user u hpk hu] at h
  split at h
  · rename_i u2 r hu2 hr
    simp at hu2 h
    subst hu2
    rw [← h]
    exact ⟨rfl, rfl⟩
  · simp at h

theorem DecodeToken_issued_other_secret (u now : Int) (userID : UUID) (ip : String)
    (rid : Int) (s1 s2 : String) (expires : Int)
    (hne : hmacKey .HS512 s1 ≠ hmacKey .HS512 s2) :
    DecodeToken u (issued now userID ip rid s1 expires) s2 =
      .error (.decode .signatureInvalid) := by
  have hsig : ¬ (Signature.hmac Alg.HS512 s1 (newClaims now userID ip rid expires)
      = Signature.hmac Alg.HS512 s2 (newClaims now userID ip rid expires)) := by
    intro heq
    unfold Signature.hmac at heq
    injection heq with _ hk _
    exact hne hk
  simp [DecodeToken, ParseWithClaims, issued, Alg.isHMAC, hsig]

theorem DecodeToken_issued_same_key (u now : Int) (userID : UUID) (ip : String)
    (rid : Int) (s1 s2 : String) (expires : Int)
    (heq : hmacKey .HS512 s1 = hmacKey .HS512 s2) :
    DecodeToken u (issued now userID ip rid s1 expires) s2 =
      DecodeToken u (issued now userID ip rid s1 expires) s1 := by
  have hsig : Signature.hmac Alg.HS512 s2 (newClaims now userID ip rid expires)
      = Signature.hmac Alg.HS512 s1 (newClaims now userID ip rid expires) := by
    unfold Signature.hmac
    rw [heq]
  simp [DecodeToken, ParseWithClaims, issued, hsig]

theorem DecodeToken_bad_signature (now : Int) (alg : Alg) (claims : models.Token)
    (sig : Signature) (secret : String) (hsig : sig ≠ .hmac alg secret claims) :
    ∃ cause, DecodeToken now (.jwt alg claims sig) secret = .error (.decode cause) := by
  by_cases ha : alg.isHMAC = true
  · exact ⟨.signatureInvalid, by simp [DecodeToken, ParseWithClaims, ha, hsig]⟩
  · exact DecodeToken_not_hmac now alg claims sig secret ha

theorem validateClaims_expired (now : Int) (claims : models.Token) (exp : Int)
    (hexp : claims.ExpiresAt = some exp) (hpast : exp * second ≤ now) :
    validateClaims now claims = .error .expired := by
  unfold validateClaims
  rw [hexp]
  simp only
  rw [if_neg (by omega)]

theorem DecodeToken_expired (now : Int) (alg : Alg) (claims : models.Token)
    (sig : Signature) (secret : String) (exp : Int)
    (hexp : claims.ExpiresAt = some exp) (hpast : exp * second ≤ now) :
    ∃ cause, DecodeToken now (.jwt alg claims sig) secret = .error (.decode cause) := by
  by_cases ha : alg.isHMAC = true
  · by_cases hs : sig = .hmac alg secret claims
    · exact ⟨.expired, by
        simp [DecodeToken, ParseWithClaims, ha, hs,
          validateClaims_expired now claims exp hexp hpast]⟩
    · exact ⟨.signatureInvalid, by simp [DecodeToken, ParseWithClaims, ha, hs]⟩
  · exact DecodeToken_not_hmac now alg claims sig secret ha

/-! ## Session service -/

theorem RefreshTokens_decode_error (cfg : config.JWT) (env : Env) (db : Store)
    (tok : TokenString) (ip : String) (err : Error)
    (h : DecodeToken env.nowDecode tok cfg.RefreshSecret = .error err) :
    AuthService.RefreshTokens cfg env db tok ip =
      { result := .error (.new "unauthorized"), store := db, tx := .notOpened } := by
  unfold AuthService.RefreshTokens
  rw [h]

theorem RefreshTokens_mismatch (cfg : config.JWT) (env : Env) (db : Store)
    (tok : TokenString) (ip : String) (claims : models.Token) (user : models.UserWithRefresh)
    (hd : DecodeToken env.nowDecode tok cfg.RefreshSecret = .ok claims)
    (hb : env.beginErr = none)
    (hu : UserDB.GetUserByID env db claims.UserID = .ok user)
    (hne : claims.RefreshID ≠ user.RefreshID) :
    AuthService.RefreshTokens cfg env db tok ip =
      { result := .error (.new "unauthorized"), store := db, tx := .rolledBack } := by
  unfold AuthService.RefreshTokens
  simp [hd, Begin, hb, hu, hne]

theorem RefreshTokens_cases (cfg : config.JWT) (env : Env) (db : Store)
    (tok : TokenString) :
    (∃ err tx, tx ≠ TxEnd.committed ∧ ∀ ip, AuthService.RefreshTokens cfg env db tok ip =
      { result := .error err, store := db, tx := tx }) ∨
    (∃ claims user,
      DecodeToken env.nowDecode tok cfg.RefreshSecret = .ok claims ∧
      UserDB.GetUserByID env db claims.UserID = .ok user ∧
      claims.RefreshID = user.RefreshID ∧
      ∀ ip, AuthService.RefreshTokens cfg env db tok ip =
        { result := .ok
            { AccessToken := issued env.nowAccess user.ID ip env.genRefreshID
                cfg.AccessSecret cfg.AccessTokenLifetime,
              RefreshToken := issued env.nowRefresh user.ID ip env.genRefreshID
                cfg.RefreshSecret cfg.RefreshTokenLifetime },
          store := rotated db user.ID env.genRefreshID,
          tx := .committed }) := by
  cases hd : DecodeToken env.nowDecode tok cfg.RefreshSecret with
  | error err =>
    exact .inl ⟨_, .notOpened, by decide,
      fun ip => RefreshTokens_decode_error cfg env db tok ip err hd⟩
  | ok claims =>
    cases hb : env.beginErr with
    | some err =>
      exact .inl ⟨err, .notOpened, by decide, fun ip => by
        simp [AuthService.RefreshTokens, hd, Begin, hb]⟩
    | none =>
      cases hu : UserDB.GetUserByID env db claims.UserID with
      | error err =>
        exact .inl ⟨err, .rolledBack, by decide, fun ip => by
          simp [AuthService.RefreshTokens, hd, Begin, hb, hu]⟩
      | ok user =>
        by_cases hid : claims.RefreshID = user.RefreshID
        · cases hdel : env.deleteRefreshErr with
          | some err =>
            exact .inl ⟨err, .rolledBack, by decide, fun ip => by
              simp [AuthService.RefreshTokens, hd, Begin, hb, hu, hid, RefreshDB.Delete,
                deleteRefresh, hdel]⟩
          | none =>
            cases hins : env.insertRefreshErr with
            | some err =>
              exact .inl ⟨err, .rolledBack, by decide, fun ip => by
                simp [AuthService.RefreshTokens, hd, Begin, hb, hu, hid, RefreshDB.Delete,
                  deleteRefresh, hdel, RefreshDB.Create, insertRefresh, hins]⟩
            | none =>
              cases hsa : env.signAccessErr with
              | some err =>
                exact .inl ⟨err, .rolledBack, by decide, fun ip => by
                  simp [AuthService.RefreshTokens, hd, Begin, hb, hu, hid, RefreshDB.Delete,
                    deleteRefresh, hdel, RefreshDB.Create, insertRefresh, hins, CreateToken,
                    SignedString, hsa]⟩
              | none =>
                cases hsr : env.signRefreshErr with
                | some err =>
                  exact .inl ⟨err, .rolledBack, by decide, fun ip => by
                    simp [AuthService.RefreshTokens, hd, Begin, hb, hu, hid, RefreshDB.Delete,
                      deleteRefresh, hdel, RefreshDB.Create, insertRefresh, hins, CreateToken,
                      SignedString, hsa, hsr]⟩
                | none =>
                  cases hc : env.commitErr with
                  | some err =>
                    exact .inl ⟨err, .rolledBack, by decide, fun ip => by
                      simp [AuthService.RefreshTokens, hd, Begin, hb, hu, hid,
                        RefreshDB.Delete, deleteRefresh, hdel, RefreshDB.Create, insertRefresh,
                        hins, CreateToken, SignedString, hsa, hsr, Commit, hc]⟩
                  | none =>
                    refine .inr ⟨claims, user, rfl, hu, hid, fun ip => ?_⟩
                    simp [AuthService.RefreshTokens, hd, Begin, hb, hu, hid, RefreshDB.Delete,
                      deleteRefresh, hdel, RefreshDB.Create, insertRefresh, hins, CreateToken,
                      SignedString, hsa, hsr, Commit, hc, issued, rotated]
        · exact .inl ⟨.new "unauthorized", .rolledBack, by decide, fun ip => by
            simp [AuthService.RefreshTokens, hd, Begin, hb, hu, hid]⟩

theorem RefreshTokens_success (cfg : config.JWT) (env : Env) (db : Store)
    (tok : TokenString) (ip : String) (claims : models.Token) (user : models.UserWithRefresh)
    (hd : DecodeToken env.nowDecode tok cfg.RefreshSecret = .ok claims)
    (hu : UserDB.GetUserByID env db claims.UserID = .ok user)
    (hid : claims.RefreshID = user.RefreshID)
    (hh : env.healthy) :
    AuthService.RefreshTokens cfg env db tok ip =
      { result := .ok
          { AccessToken := issued env.nowAccess user.ID ip env.genRefreshID
              cfg.AccessSecret cfg.AccessTokenLifetime,
            RefreshToken := issued env.nowRefresh user.ID ip env.genRefreshID
              cfg.RefreshSecret cfg.RefreshTokenLifetime },
        store := rotated db user.ID env.genRefreshID,
        tx := .committed } := by
  obtain ⟨hb, _, _, hdel, hins, hsa, hsr, hc⟩ := hh
  unfold AuthService.RefreshTokens
  simp [hd, Begin, hb, hu, hid, RefreshDB.Delete, deleteRefresh, hdel,
    RefreshDB.Create, insertRefresh, hins, CreateToken, SignedString, hsa,
    hsr, Commit, hc, issued, rotated]

theorem UserDB_Create_ok (env : Env) (tx : Store) (user : dto.User) (id : UUID) (tx1 : Store)
    (h : UserDB.Create env tx user = .ok (id, tx1)) :
    env.insertUserErr = none ∧ (∀ u ∈ tx.user, u.email ≠ user.Email) ∧ id = env.genUserID ∧
      tx1 = { tx with user := tx.user ++ [{ id := env.genUserID, email := user.Email }] } := by
  unfold UserDB.Create insertUser at h
  cases hi : env.insertUserErr with
  | some err =>
    rw [hi] at h
    cases err <;> simp at h
    split at h <;> simp at h
  | none =>
    rw [hi] at h
    by_cases hex : (tx.user.any fun u => u.email = user.Email) = true
    · simp [hex, UniqueViolation] at h
    · simp only [hex] at h
      simp at h hex
      exact ⟨rfl, hex, h.1.symm, h.2.symm⟩

theorem UserDB_Create_new (env : Env) (tx : Store) (user : dto.User)
    (hi : env.insertUserErr = none) (hnew : ∀ u ∈ tx.user, u.email ≠ user.Email) :
    UserDB.Create env tx user = .ok (env.genUserID,
      { tx with user := tx.user ++ [{ id := env.genUserID, email := user.Email }] }) := by
  unfold UserDB.Create insertUser
  have hex : ¬ (tx.user.any fun u => u.email = user.Email) = true := by
    simpa using hnew
  simp only [hi, hex]
  simp

theorem UserDB_Create_duplicate (env : Env) (tx : Store) (user : dto.User)
    (hi : env.insertUserErr = none) (hdup : ∃ u ∈ tx.user, u.email = user.Email) :
    UserDB.Create env tx user = .error (.new "user with this email already exists") := by
  unfold UserDB.Create insertUser
  have hex : (tx.user.any fun u => u.email = user.Email) = true := by
    simpa using hdup
  simp [hi, hex, UniqueViolation]

theorem CreateUser_cases (cfg : config.JWT) (env : Env) (db : Store) (user : dto.User)
    (ip : String) :
    (∃ err tx, tx ≠ TxEnd.committed ∧ AuthService.CreateUser cfg env db user ip =
      { result := .error err, store := db, tx := tx }) ∨
    ((∀ u ∈ db.user, u.email ≠ user.Email) ∧
      AuthService.CreateUser cfg env db user ip =
        { result := .ok env.genUserID,
          store := created db env.genUserID user.Email env.genRefreshID,
          tx := .committed }) := by
  unfold AuthService.CreateUser
  cases hb : env.beginErr with
  | some err => exact .inl ⟨err, .notOpened, by decide, by simp [Begin, hb]⟩
  | none =>
    cases hc : UserDB.Create env db user with
    | error err => exact .inl ⟨err, .rolledBack, by decide, by simp [Begin, hb, hc]⟩
    | ok r =>
      obtain ⟨id, tx1⟩ := r
      obtain ⟨_, hnew, hid, htx⟩ := UserDB_Create_ok env db user id tx1 hc
      subst hid htx
      cases hins : env.insertRefreshErr with
      | some err =>
        exact .inl ⟨err, .rolledBack, by decide, by
          simp [Begin, hb, hc, RefreshDB.Create, insertRefresh, hins]⟩
      | none =>
        cases hcm : env.commitErr with
        | some err =>
          exact .inl ⟨err, .rolledBack, by decide, by
            simp [Begin, hb, hc, RefreshDB.Create, insertRefresh, hins, Commit, hcm]⟩
        | none =>
          exact .inr ⟨hnew, by
            simp [Begin, hb, hc, RefreshDB.Create, insertRefresh, hins, Commit, hcm, created]⟩

theorem GetTokens_cases (cfg : config.JWT) (env : Env) (db : Store) (userID : UUID)
    (ip : String) :
    (∃ err tx, tx ≠ TxEnd.committed ∧ AuthService.GetTokens cfg env db userID ip =
      { result := .error err, store := db, tx := tx }) ∨
    (∃ user, UserDB.GetUserByID env db userID = .ok user ∧
      AuthService.GetTokens cfg env db userID ip =
        { result := .ok
            { AccessToken := issued env.nowAccess user.ID ip user.RefreshID
                cfg.AccessSecret cfg.AccessTokenLifetime,
              RefreshToken := issued env.nowRefresh user.ID ip user.RefreshID
                cfg.RefreshSecret cfg.RefreshTokenLifetime },
          store := db, tx := .rolledBack }) := by
  unfold AuthService.GetTokens
  cases hb : env.beginErr with
  | some err => exact .inl ⟨err, .notOpened, by decide, by simp [Begin, hb]⟩
  | none =>
    cases hu : UserDB.GetUserByID env db userID with
    | error err => exact .inl ⟨err, .rolledBack, by decide, by simp [Begin, hb, hu]⟩
    | ok user =>
      cases hsa : env.signAccessErr with
      | some err =>
        exact .inl ⟨err, .rolledBack, by decide, by
          simp [Begin, hb, hu, CreateToken, SignedString, hsa]⟩
      | none =>
        cases hsr : env.signRefreshErr with
        | some err =>
          exact .inl ⟨err, .rolledBack, by decide, by
            simp [Begin, hb, hu, CreateToken, SignedString, hsa, hsr]⟩
        | none =>
          exact .inr ⟨user, rfl, by
            simp [Begin, hb, hu, CreateToken, SignedString, hsa, hsr, issued]⟩

theorem GetTokens_store (cfg : config.JWT) (env : Env) (db : Store) (userID : UUID)
    (ip : String) : (AuthService.GetTokens cfg env db userID ip).store = db := by
  rcases GetTokens_cases cfg env db userID ip with ⟨e, tx, _, he⟩ | ⟨user, _, hok⟩
  · rw [he]
  · rw [hok]

theorem GetCurrentUser_cases (cfg : config.JWT) (env : Env) (db : Store)
    (tok : TokenString) :
    (∃ err tx, tx ≠ TxEnd.committed ∧ AuthService.GetCurrentUser cfg env db tok =
      { result := .error err, store := db, tx := tx }) ∨
    (∃ claims user,
      DecodeToken env.nowDecode tok cfg.AccessSecret = .ok claims ∧
      UserDB.GetUserByID env db claims.UserID = .ok user ∧
      AuthService.GetCurrentUser cfg env db tok =
        { result := .ok { ID := user.ID, Email := user.Email }, store := db,
          tx := .rolledBack }) := by
  unfold AuthService.GetCurrentUser
  cases hd : DecodeToken env.nowDecode tok cfg.AccessSecret with
  | error err => exact .inl ⟨.new "unauthorized", .notOpened, by decide, rfl⟩
  | ok claims =>
    cases hb : env.beginErr with
    | some err => exact .inl ⟨err, .notOpened, by decide, by simp [Begin, hb]⟩
    | none =>
      cases hu : UserDB.GetUserByID env db claims.UserID with
      | error err => exact .inl ⟨err, .rolledBack, by decide, by simp [Begin, hb, hu]⟩
      | ok user => exact .inr ⟨claims, user, rfl, hu, by simp [Begin, hb, hu]⟩

theorem GetCurrentUser_store (cfg : config.JWT) (env : Env) (db : Store)
    (tok : TokenString) : (AuthService.GetCurrentUser cfg env db tok).store = db := by
  rcases GetCurrentUser_cases cfg env db tok with ⟨e, tx, _, he⟩ | ⟨claims, user, _, _, hok⟩
  · rw [he]
  · rw [hok]

theorem GetCurrentUser_decode_error (cfg : config.JWT) (env : Env) (db : Store)
    (tok : TokenString) (err : Error)
    (h : DecodeToken env.nowDecode tok cfg.AccessSecret = .error err) :
    AuthService.GetCurrentUser cfg env db tok =
      { result := .error (.new "unauthorized"), store := db, tx := .notOpened } := by
  unfold AuthService.GetCurrentUser
  rw [h]

/-! ## Refresh rotation -/

/-- C1: a refresh token that the refresh secret verifies, that is within its
validity window and whose refresh_id is the one stored for its owner is redeemed
once. The first `RefreshTokens` call succeeds; a second call with the same token,
in the store the first call committed, fails with the error "unauthorized" and
leaves that store as it is. The database is assumed to answer during both calls
and to assign a refresh id different from the one it replaces. -/
theorem C1_refresh_token_redeemed_once (cfg : config.JWT) (env1 env2 : Env) (db : Store)
    (tok : TokenString) (ip1 ip2 : String) (claims : models.Token)
    (user : models.UserWithRefresh)
    (hvalid : DecodeToken env1.nowDecode tok cfg.RefreshSecret = .ok claims)
    (howner : UserDB.GetUserByID env1 db claims.UserID = .ok user)
    (hid : claims.RefreshID = user.RefreshID)
    (hnew : env1.genRefreshID ≠ user.RefreshID)
    (h1 : env1.healthy)
    (hbegin2 : env2.beginErr = none) (hselect2 : env2.selectUserErr = none) :
    (∃ pair, (AuthService.RefreshTokens cfg env1 db tok ip1).result = .ok pair) ∧
    (AuthService.RefreshTokens cfg env2
        (AuthService.RefreshTokens cfg env1 db tok ip1).store tok ip2).result
      = .error (.new "unauthorized") ∧
    (AuthService.RefreshTokens cfg env2
        (AuthService.RefreshTokens cfg env1 db tok ip1).store tok ip2).store
      = (AuthService.RefreshTokens cfg env1 db tok ip1).store := by
  rw [RefreshTokens_success cfg env1 db tok ip1 claims user hvalid howner hid h1]
  refine ⟨⟨_, rfl⟩, ?_⟩
  simp only
  cases hd2 : DecodeToken env2.nowDecode tok cfg.RefreshSecret with
  | error err =>
    rw [RefreshTokens_decode_error cfg env2 _ tok ip2 err hd2]
    exact ⟨rfl, rfl⟩
  | ok claims2 =>
    obtain ⟨alg1, _, htok1, _⟩ := DecodeToken_ok_claims _ _ _ _ hvalid
    obtain ⟨alg2, _, htok2, _⟩ := DecodeToken_ok_claims _ _ _ _ hd2
    have hclaims : claims2 = claims := by
      rw [htok1] at htok2
      injection htok2 with _ hc _
      exact hc.symm
    subst hclaims
    have hj := GetUserByID_ok env1 db claims2.UserID user howner
    have huid := firstJoined_ID db claims2.UserID user hj
    have hj2 := firstJoined_rotated db claims2.UserID env1.genRefreshID user hj
    have hu2 : UserDB.GetUserByID env2 (rotated db user.ID env1.genRefreshID) claims2.UserID
        = .ok { ID := claims2.UserID, Email := user.Email, RefreshID := env1.genRefreshID } := by
      rw [GetUserByID_of_healthy env2 _ _ hselect2, huid, hj2]
    have hne : claims2.RefreshID ≠ env1.genRefreshID := by
      rw [hid]
      exact fun h => hnew h.symm
    rw [RefreshTokens_mismatch cfg env2 _ tok ip2 claims2 _ hd2 hbegin2 hu2 hne]
    exact ⟨rfl, rfl⟩

/-- Witness of C1: the sample refresh token is redeemed at instant 0 and replayed
at instant 5. -/
theorem C1_refresh_token_redeemed_once_witness :
    (∃ pair, (AuthService.RefreshTokens Sample.cfg (Sample.env 0 8 2) Sample.db
        Sample.refreshToken "10.0.0.1").result = .ok pair) ∧
    (AuthService.RefreshTokens Sample.cfg (Sample.env 5 9 3)
        (AuthService.RefreshTokens Sample.cfg (Sample.env 0 8 2) Sample.db
          Sample.refreshToken "10.0.0.1").store Sample.refreshToken "10.0.0.2").result
      = .error (.new "unauthorized") ∧
    (AuthService.RefreshTokens Sample.cfg (Sample.env 5 9 3)
        (AuthService.RefreshTokens Sample.cfg (Sample.env 0 8 2) Sample.db
          Sample.refreshToken "10.0.0.1").store Sample.refreshToken "10.0.0.2").store
      = (AuthService.RefreshTokens Sample.cfg (Sample.env 0 8 2) Sample.db
          Sample.refreshToken "10.0.0.1").store :=
  C1_refresh_token_redeemed_once Sample.cfg (Sample.env 0 8 2) (Sample.env 5 9 3) Sample.db
    Sample.refreshToken "10.0.0.1" "10.0.0.2" Sample.refreshClaims
    { ID := 7, Email := "a@x.com", RefreshID := 1 }
    (by decide) (by decide) (by decide) (by decide) (by decide) (by decide) (by decide)

/-- C2: rotation is atomic. Whenever `RefreshTokens` returns an error, whatever
step failed, no commit has happened and the committed store is the store before
the call, so every lookup of a user with its refresh id answers as before. -/
theorem C2_failed_refresh_leaves_store (cfg : config.JWT) (env : Env) (db : Store)
    (tok : TokenString) (ip : String) (err : Error)
    (h : (AuthService.RefreshTokens cfg env db tok ip).result = .error err) :
    (AuthService.RefreshTokens cfg env db tok ip).store = db ∧
    (AuthService.RefreshTokens cfg env db tok ip).tx ≠ .committed ∧
    ∀ (env2 : Env) (id : UUID),
      UserDB.GetUserByID env2 (AuthService.RefreshTokens cfg env db tok ip).store id
        = UserDB.GetUserByID env2 db id := by
  rcases RefreshTokens_cases cfg env db tok with ⟨e, tx, htx, he⟩ | ⟨claims, user, _, _, _, hok⟩
  · rw [he ip]
    exact ⟨rfl, htx, fun _ _ => rfl⟩
  · rw [hok ip] at h
    simp at h

/-- Witness of C2: the commit of a rotation fails. -/
theorem C2_failed_refresh_leaves_store_witness :
    (AuthService.RefreshTokens Sample.cfg
        { Sample.env 0 8 2 with commitErr := some (.driver "conn closed") } Sample.db
        Sample.refreshToken "10.0.0.1").store = Sample.db ∧
    (AuthService.RefreshTokens Sample.cfg
        { Sample.env 0 8 2 with commitErr := some (.driver "conn closed") } Sample.db
        Sample.refreshToken "10.0.0.1").tx ≠ .committed ∧
    UserDB.GetUserByID (Sample.env 5 9 3) (AuthService.RefreshTokens Sample.cfg
        { Sample.env 0 8 2 with commitErr := some (.driver "conn closed") } Sample.db
        Sample.refreshToken "10.0.0.1").store 7
      = UserDB.GetUserByID (Sample.env 5 9 3) Sample.db 7 :=
  ⟨(C2_failed_refresh_leaves_store Sample.cfg
      { Sample.env 0 8 2 with commitErr := some (.driver "conn closed") } Sample.db
      Sample.refreshToken "10.0.0.1" (.driver "conn closed") (by decide)).1,
    (C2_failed_refresh_leaves_store Sample.cfg
      { Sample.env 0 8 2 with commitErr := some (.driver "conn closed") } Sample.db
      Sample.refreshToken "10.0.0.1" (.driver "conn closed") (by decide)).2.1,
    (C2_failed_refresh_leaves_store Sample.cfg
      { Sample.env 0 8 2 with commitErr := some (.driver "conn closed") } Sample.db
      Sample.refreshToken "10.0.0.1" (.driver "conn closed") (by decide)).2.2
      (Sample.env 5 9 3) 7⟩

/-! ## One refresh row per user -/

theorem refreshRowsOf_rotated_self (db : Store) (id : UUID) (g : Int) :
    refreshRowsOf (rotated db id g) id = 1 := by
  unfold refreshRowsOf rotated
  simp [List.filter_append, List.filter_filter]

theorem refreshRowsOf_rotated_other (db : Store) (id other : UUID) (g : Int)
    (h : other ≠ id) : refreshRowsOf (rotated db id g) other = refreshRowsOf db other := by
  unfold refreshRowsOf rotated
  have hlast : ¬ id = other := fun e => h e.symm
  simp only [List.filter_append, List.filter_filter]
  have hfil : (db.refresh.filter fun a => decide (a.user_id = other) && decide (a.user_id ≠ id))
      = db.refresh.filter fun r => decide (r.user_id = other) := by
    apply List.filter_congr
    intro r _
    by_cases hr : r.user_id = other
    · simp [hr, h]
    · simp [hr]
  rw [hfil]
  simp [hlast]

theorem OneRefreshPerUser_rotated (db : Store) (id : UUID) (g : Int)
    (h : OneRefreshPerUser db) : OneRefreshPerUser (rotated db id g) := by
  intro u hu
  by_cases hid : u.id = id
  · rw [hid]; exact refreshRowsOf_rotated_self db id g
  · rw [refreshRowsOf_rotated_other db id u.id g hid]
    exact h u hu

theorem refreshRowsOf_created_self (db : Store) (uid : UUID) (email : String) (g : Int)
    (hfresh : ∀ r ∈ db.refresh, r.user_id ≠ uid) :
    refreshRowsOf (created db uid email g) uid = 1 := by
  unfold refreshRowsOf created
  have hnil : (db.refresh.filter fun r => decide (r.user_id = uid)) = [] := by
    rw [List.filter_eq_nil_iff]
    intro r hr
    simpa using hfresh r hr
  simp [List.filter_append, hnil]

theorem refreshRowsOf_created_other (db : Store) (uid other : UUID) (email : String) (g : Int)
    (h : other ≠ uid) : refreshRowsOf (created db uid email g) other = refreshRowsOf db other := by
  unfold refreshRowsOf created
  have hlast : ¬ uid = other := fun e => h e.symm
  simp [List.filter_append, hlast]

theorem OneRefreshPerUser_created (db : Store) (uid : UUID) (email : String) (g : Int)
    (hu : ∀ u ∈ db.user, u.id ≠ uid) (hr : ∀ r ∈ db.refresh, r.user_id ≠ uid)
    (h : OneRefreshPerUser db) : OneRefreshPerUser (created db uid email g) := by
  intro u hmem
  have hmem2 : u ∈ db.user ∨ u = { id := uid, email := email } := by
    simpa [created] using hmem
  rcases hmem2 with hold | hnew
  · rw [refreshRowsOf_created_other db uid u.id email g (hu u hold)]
    exact h u hold
  · subst hnew
    exact refreshRowsOf_created_self db uid email g hr

/-- C3: "every user row of the committed store has exactly one refresh row" is an
invariant of the session service. After a successful `CreateUser` the new user is
stored and owns exactly one refresh row; and when the predicate holds before a
call of `CreateUser`, `GetTokens`, `RefreshTokens` or `GetCurrentUser`, it holds
in the committed store after the call, whether the call succeeds or fails at any
step. The id the database assigns to the new user row is assumed to be in use
nowhere in the store. -/
theorem C3_one_refresh_row_per_user (cfg : config.JWT) (env : Env) (db : Store) :
    (∀ (user : dto.User) (ip : String) (id : UUID) (db1 : Store),
      (∀ r ∈ db.refresh, r.user_id ≠ env.genUserID) →
      (AuthService.CreateUser cfg env db user ip).result = .ok id →
      (AuthService.CreateUser cfg env db user ip).store = db1 →
      { id := id, email := user.Email } ∈ db1.user ∧ refreshRowsOf db1 id = 1) ∧
    (OneRefreshPerUser db →
      (∀ (user : dto.User) (ip : String), env.freshUserID db →
        OneRefreshPerUser (AuthService.CreateUser cfg env db user ip).store) ∧
      (∀ (userID : UUID) (ip : String),
        OneRefreshPerUser (AuthService.GetTokens cfg env db userID ip).store) ∧
      (∀ (tok : TokenString) (ip : String),
        OneRefreshPerUser (AuthService.RefreshTokens cfg env db tok ip).store) ∧
      (∀ (tok : TokenString),
        OneRefreshPerUser (AuthService.GetCurrentUser cfg env db tok).store)) := by
  constructor
  · intro user ip id db1 hfresh hok hstore
    rcases CreateUser_cases cfg env db user ip with ⟨e, tx, _, he⟩ | ⟨_, hcr⟩
    · rw [he] at hok
      simp at hok
    · rw [hcr] at hok hstore
      simp only [Except.ok.injEq] at hok
      subst hok hstore
      exact ⟨by simp [created], refreshRowsOf_created_self db _ _ _ hfresh⟩
  · intro hinv
    refine ⟨?_, ?_, ?_, ?_⟩
    · intro user ip hfresh
      rcases CreateUser_cases cfg env db user ip with ⟨e, tx, _, he⟩ | ⟨_, hcr⟩
      · rw [he]; exact hinv
      · rw [hcr]
        exact OneRefreshPerUser_created db _ _ _ hfresh.1 hfresh.2 hinv
    · intro userID ip
      rw [GetTokens_store]; exact hinv
    · intro tok ip
      rcases RefreshTokens_cases cfg env db tok with
        ⟨e, tx, _, he⟩ | ⟨claims, user, _, _, _, hok⟩
      · rw [he ip]; exact hinv
      · rw [hok ip]
        exact OneRefreshPerUser_rotated db _ _ hinv
    · intro tok
      rw [GetCurrentUser_store]; exact hinv

/-- Witness of C3: a user is created in the sample store; a second creation
fails at `RefreshDB.Create`; the sample token is redeemed. -/
theorem C3_one_refresh_row_per_user_witness :
    ({ id := 8, email := "b@x.com" } ∈
        (AuthService.CreateUser Sample.cfg (Sample.env 0 8 2) Sample.db
          { Email := "b@x.com" } "10.0.0.1").store.user ∧
      refreshRowsOf (AuthService.CreateUser Sample.cfg (Sample.env 0 8 2) Sample.db
          { Email := "b@x.com" } "10.0.0.1").store 8 = 1) ∧
    OneRefreshPerUser (AuthService.CreateUser Sample.cfg (Sample.env 0 8 2) Sample.db
      { Email := "b@x.com" } "10.0.0.1").store ∧
    OneRefreshPerUser (AuthService.CreateUser Sample.cfg
      { Sample.env 0 8 2 with insertRefreshErr := some (.driver "conn closed") } Sample.db
      { Email := "b@x.com" } "10.0.0.1").store ∧
    OneRefreshPerUser (AuthService.RefreshTokens Sample.cfg (Sample.env 0 8 2) Sample.db
      Sample.refreshToken "10.0.0.1").store :=
  ⟨(C3_one_refresh_row_per_user Sample.cfg (Sample.env 0 8 2) Sample.db).1
      { Email := "b@x.com" } "10.0.0.1" 8 _ (by decide) rfl rfl,
    ((C3_one_refresh_row_per_user Sample.cfg (Sample.env 0 8 2) Sample.db).2
      (by decide)).1 { Email := "b@x.com" } "10.0.0.1" (by decide),
    ((C3_one_refresh_row_per_user Sample.cfg
      { Sample.env 0 8 2 with insertRefreshErr := some (.driver "conn closed") }
      Sample.db).2 (by decide)).1 { Email := "b@x.com" } "10.0.0.1" (by decide),
    ((C3_one_refresh_row_per_user Sample.cfg (Sample.env 0 8 2) Sample.db).2
      (by decide)).2.2.1 Sample.refreshToken "10.0.0.1"⟩

/-! ## Issue, then resolve -/

/-- C4: for a stored user `u` (user ids being unique in the store) and any
`ipAddress`, when `GetTokens(u.ID, ipAddress)` succeeds with a pair, a following
`GetCurrentUser` on the pair's access token, made before the access token
expires and with the database answering, succeeds and returns the user with the
id and the email of `u`. -/
theorem C4_issued_access_token_resolves (cfg : config.JWT) (env1 env2 : Env) (db : Store)
    (u : UserRow) (ip : String) (pair : models.TokensPair)
    (hpk : (db.user.map fun x => x.id).Nodup) (hu : u ∈ db.user)
    (hget : (AuthService.GetTokens cfg env1 db u.id ip).result = .ok pair)
    (hbegin : env2.beginErr = none) (hselect : env2.selectUserErr = none)
    (hlive : env2.nowDecode < expiryUnix env1.nowAccess cfg.AccessTokenLifetime * second) :
    (AuthService.GetCurrentUser cfg env2 (AuthService.GetTokens cfg env1 db u.id ip).store
        pair.AccessToken).result
      = .ok { ID := u.id, Email := u.email } := by
  rcases GetTokens_cases cfg env1 db u.id ip with ⟨e, tx, _, he⟩ | ⟨user, huser, hok⟩
  · rw [he] at hget
    simp at hget
  · rw [hok] at hget ⊢
    simp only [Except.ok.injEq] at hget
    subst hget
    have hj := GetUserByID_ok env1 db u.id user huser
    obtain ⟨hid, hemail⟩ := firstJoined_of_nodup db u user hpk hu hj
    have hdec : DecodeToken env2.nowDecode
        (issued env1.nowAccess user.ID ip user.RefreshID cfg.AccessSecret
          cfg.AccessTokenLifetime) cfg.AccessSecret
        = .ok (newClaims env1.nowAccess user.ID ip user.RefreshID cfg.AccessTokenLifetime) := by
      rw [DecodeToken_issued, if_pos hlive]
    have hu2 : UserDB.GetUserByID env2 db user.ID = .ok user := by
      rw [GetUserByID_of_healthy env2 db user.ID hselect, hid, hj]
    unfold AuthService.GetCurrentUser
    simp only [hdec, Begin, hbegin]
    have huid : (newClaims env1.nowAccess user.ID ip user.RefreshID
        cfg.AccessTokenLifetime).UserID = user.ID := rfl
    rw [huid, hu2]
    simp [hid, hemail]

/-- Witness of C4: tokens are issued to the sample user at instant 0 and the
access token is resolved at instant 5. -/
theorem C4_issued_access_token_resolves_witness :
    (AuthService.GetCurrentUser Sample.cfg (Sample.env 5 9 3)
        (AuthService.GetTokens Sample.cfg (Sample.env 0 8 2) Sample.db 7 "10.0.0.1").store
        Sample.accessToken).result
      = .ok { ID := 7, Email := "a@x.com" } :=
  C4_issued_access_token_resolves Sample.cfg (Sample.env 0 8 2) (Sample.env 5 9 3) Sample.db
    { id := 7, email := "a@x.com" } "10.0.0.1"
    { AccessToken := Sample.accessToken, RefreshToken := Sample.refreshToken }
    (by decide) (by decide) (by decide) (by decide) (by decide) (by decide)

/-! ## Codec round trip and acceptance window -/

/-- C5: codec round trip. For every userID, ipAddress, refreshID, secret and
lifetime, the token `CreateToken` signs at instant `t`, decoded by `DecodeToken`
with the same secret at an instant `u` before the embedded expiry, is accepted
and yields a `Token` whose UserID, IpAddress and RefreshID are the issued ones
and whose ExpiresAt is the embedded expiry, the Unix second of `t + lifetime`. -/
theorem C5_codec_round_trip (t u : Int) (userID : UUID) (ipAddress : String)
    (refreshID : Int) (secret : String) (lifetime : Int)
    (hlive : u < expiryUnix t lifetime * second) :
    ∃ tok model,
      CreateToken t none userID ipAddress refreshID secret lifetime = .ok tok ∧
      DecodeToken u tok secret = .ok model ∧
      model.UserID = userID ∧ model.IpAddress = ipAddress ∧ model.RefreshID = refreshID ∧
      model.ExpiresAt = some ((t + lifetime) / 1000000000) := by
  refine ⟨issued t userID ipAddress refreshID secret lifetime,
    newClaims t userID ipAddress refreshID lifetime, rfl, ?_, rfl, rfl, rfl, rfl⟩
  rw [DecodeToken_issued, if_pos hlive]

/-- Witness of C5: a token issued at instant 0 for 3600 s, decoded at instant 5. -/
theorem C5_codec_round_trip_witness :
    ∃ tok model,
      CreateToken 0 none 7 "10.0.0.1" 1 "refresh-secret" (3600 * second) = .ok tok ∧
      DecodeToken 5 tok "refresh-secret" = .ok model ∧
      model.UserID = 7 ∧ model.IpAddress = "10.0.0.1" ∧ model.RefreshID = 1 ∧
      model.ExpiresAt = some ((0 + 3600 * second) / 1000000000) :=
  C5_codec_round_trip 0 5 7 "10.0.0.1" 1 "refresh-secret" (3600 * second) (by decide)

/-- C9, as stated, fails: a token issued at t = 1700000000.7 s for 900 s carries
the expiry 1700000900 s, not t + 900 s, and at u = 1700000900.6 s, which lies
between t and t + 900 s, `DecodeToken` rejects it as expired. -/
theorem C9_counterexample :
    (0 : Int) < 900000000000 ∧
    (1700000000700000000 : Int) ≤ 1700000900600000000 ∧
    (1700000900600000000 : Int) ≤ 1700000000700000000 + 900000000000 ∧
    ∃ tok,
      CreateToken 1700000000700000000 none 7 "10.0.0.1" 1 "refresh-secret" 900000000000
        = .ok tok ∧
      DecodeToken 1700000900600000000 tok "refresh-secret" = .error (.decode .expired) := by
  refine ⟨by decide, by decide, by decide, _, rfl, ?_⟩
  decide

/-- C9, amended: the token `CreateToken` issues at instant `t` with lifetime `d`
(positive or not) carries as expiry the whole Unix second `E = ⌊(t + d) / 1 s⌋`. `DecodeToken` with
the same secret accepts it at every instant before `E` seconds, hence at every
`u` with `t ≤ u ≤ t + d - 1 s`, and rejects it as expired at every instant from
`E` seconds on, hence at every `u > t + d`. -/
theorem C9_acceptance_window (t d : Int) (userID : UUID) (ipAddress : String)
    (refreshID : Int) (secret : String) :
    ∃ tok,
      CreateToken t none userID ipAddress refreshID secret d = .ok tok ∧
      (∀ u : Int, u < (t + d) / 1000000000 * 1000000000 →
        ∃ model, DecodeToken u tok secret = .ok model ∧
          model.ExpiresAt = some ((t + d) / 1000000000)) ∧
      (∀ u : Int, (t + d) / 1000000000 * 1000000000 ≤ u →
        DecodeToken u tok secret = .error (.decode .expired)) ∧
      (∀ u : Int, t ≤ u → u ≤ t + d - 1000000000 →
        ∃ model, DecodeToken u tok secret = .ok model) ∧
      (∀ u : Int, t + d < u → DecodeToken u tok secret = .error (.decode .expired)) := by
  refine ⟨issued t userID ipAddress refreshID secret d, rfl, ?_, ?_, ?_, ?_⟩
  · intro u hu
    refine ⟨newClaims t userID ipAddress refreshID d, ?_, rfl⟩
    rw [DecodeToken_issued, if_pos (by simpa [expiryUnix, second] using hu)]
  · intro u hu
    rw [DecodeToken_issued, if_neg]
    simp only [expiryUnix, second]
    omega
  · intro u h1 h2
    refine ⟨newClaims t userID ipAddress refreshID d, ?_⟩
    rw [DecodeToken_issued, if_pos]
    simp only [expiryUnix, second]
    omega
  · intro u hu
    rw [DecodeToken_issued, if_neg]
    simp only [expiryUnix, second]
    omega

/-- Witness of C9, amended: a token issued at instant 0.7 s for 900 s is accepted
at 899.9 s and at 0.7 s, rejected at 900 s and at 900.8 s. -/
theorem C9_acceptance_window_witness :
    ∃ tok,
      CreateToken 700000000 none 7 "10.0.0.1" 1 "refresh-secret" 900000000000 = .ok tok ∧
      (∃ model, DecodeToken 899900000000 tok "refresh-secret" = .ok model ∧
        model.ExpiresAt = some ((700000000 + 900000000000) / 1000000000)) ∧
      DecodeToken 900000000000 tok "refresh-secret" = .error (.decode .expired) ∧
      (∃ model, DecodeToken 700000000 tok "refresh-secret" = .ok model) ∧
      DecodeToken 900800000000 tok "refresh-secret" = .error (.decode .expired) :=
  match C9_acceptance_window 700000000 900000000000 7 "10.0.0.1" 1 "refresh-secret" with
  | ⟨tok, h0, h1, h2, h3, h4⟩ =>
    ⟨tok, h0, h1 899900000000 (by decide), h2 900000000000 (by decide),
      h3 700000000 (by decide) (by decide), h4 900800000000 (by decide)⟩

/-! ## Token kinds -/

/-- C6, as stated, fails: `MustLoad` accepts a host whose access secret and
refresh secret are the same text, and under that configuration the access token
of a pair issued by `GetTokens` is redeemed by `RefreshTokens` and its refresh
token is resolved by `GetCurrentUser`. -/
theorem C6_counterexample :
    MustLoad Sample.hostSameSecret = some Sample.cfgSameSecret ∧
    ∃ pair,
      (AuthService.GetTokens Sample.cfgSameSecret (Sample.env 0 8 2) Sample.db 7
        "10.0.0.1").result = .ok pair ∧
      (∃ pair2, (AuthService.RefreshTokens Sample.cfgSameSecret (Sample.env 5 9 3) Sample.db
        pair.AccessToken "10.0.0.1").result = .ok pair2) ∧
      (AuthService.GetCurrentUser Sample.cfgSameSecret (Sample.env 5 9 3) Sample.db
        pair.RefreshToken).result = .ok { ID := 7, Email := "a@x.com" } := by
  refine ⟨by decide, _, rfl, ⟨_, rfl⟩, ?_⟩
  decide

/-- C6, amended: under every configuration whose access secret and refresh
secret are different HMAC-SHA512 keys, that is, whose 128-byte key blocks differ
(zero bytes fill a secret up to the block, the SHA-512 digest replaces a secret
longer than the block), for every pair returned by `GetTokens` or by
`RefreshTokens`, `RefreshTokens` on the pair's access token and `GetCurrentUser`
on the pair's refresh token fail with the error "unauthorized", at any time, in
any store and from any address, before a transaction is opened. -/
theorem C6_token_kinds_segregated (cfg : config.JWT) (env : Env) (db : Store)
    (pair : models.TokensPair)
    (hsecrets : hmacKey .HS512 cfg.AccessSecret ≠ hmacKey .HS512 cfg.RefreshSecret)
    (hissued : (∃ userID ip, (AuthService.GetTokens cfg env db userID ip).result = .ok pair) ∨
      (∃ tok ip, (AuthService.RefreshTokens cfg env db tok ip).result = .ok pair)) :
    ∀ (env2 : Env) (db2 : Store) (ip2 : String),
      AuthService.RefreshTokens cfg env2 db2 pair.AccessToken ip2
        = { result := .error (.new "unauthorized"), store := db2, tx := .notOpened } ∧
      AuthService.GetCurrentUser cfg env2 db2 pair.RefreshToken
        = { result := .error (.new "unauthorized"), store := db2, tx := .notOpened } := by
  have hshape : ∃ t1 t2 uid ip rid,
      pair = { AccessToken := issued t1 uid ip rid cfg.AccessSecret cfg.AccessTokenLifetime,
               RefreshToken := issued t2 uid ip rid cfg.RefreshSecret
                 cfg.RefreshTokenLifetime } := by
    rcases hissued with ⟨userID, ip, h⟩ | ⟨tok, ip, h⟩
    · rcases GetTokens_cases cfg env db userID ip with ⟨e, tx, _, he⟩ | ⟨user, _, hok⟩
      · rw [he] at h; simp at h
      · rw [hok] at h
        simp only [Except.ok.injEq] at h
        exact ⟨_, _, _, _, _, h.symm⟩
    · rcases RefreshTokens_cases cfg env db tok with
        ⟨e, tx, _, he⟩ | ⟨claims, user, _, _, _, hok⟩
      · rw [he ip] at h; simp at h
      · rw [hok ip] at h
        simp only [Except.ok.injEq] at h
        exact ⟨_, _, _, _, _, h.symm⟩
  obtain ⟨t1, t2, uid, ip, rid, hpair⟩ := hshape
  subst hpair
  intro env2 db2 ip2
  exact ⟨RefreshTokens_decode_error cfg env2 db2 _ ip2 _
      (DecodeToken_issued_other_secret _ _ _ _ _ _ _ _ hsecrets),
    GetCurrentUser_decode_error cfg env2 db2 _ _
      (DecodeToken_issued_other_secret _ _ _ _ _ _ _ _ (fun h => hsecrets h.symm))⟩

/-- Witness of C6, amended: the pair `GetTokens` issues to the sample user under
the sample configuration, whose secrets give different key blocks. -/
theorem C6_token_kinds_segregated_witness :
    AuthService.RefreshTokens Sample.cfg (Sample.env 5 9 3) Sample.db Sample.accessToken
        "10.0.0.2"
      = { result := .error (.new "unauthorized"), store := Sample.db, tx := .notOpened } ∧
    AuthService.GetCurrentUser Sample.cfg (Sample.env 5 9 3) Sample.db Sample.refreshToken
      = { result := .error (.new "unauthorized"), store := Sample.db, tx := .notOpened } :=
  C6_token_kinds_segregated Sample.cfg (Sample.env 0 8 2) Sample.db
    { AccessToken := Sample.accessToken, RefreshToken := Sample.refreshToken }
    (by decide) (.inl ⟨7, "10.0.0.1", rfl⟩) (Sample.env 5 9 3) Sample.db "10.0.0.2"

/-- Two secrets that differ as texts but are one HMAC key do not segregate: under
the configuration whose refresh secret is the access secret followed by a zero
byte, the access token of an issued pair is redeemed by `RefreshTokens`. -/
theorem padded_secret_redeems_access_token :
    Sample.cfgPaddedSecret.AccessSecret ≠ Sample.cfgPaddedSecret.RefreshSecret ∧
    ∃ pair,
      (AuthService.GetTokens Sample.cfgPaddedSecret (Sample.env 0 8 2) Sample.db 7
        "10.0.0.1").result = .ok pair ∧
      ∃ pair2, (AuthService.RefreshTokens Sample.cfgPaddedSecret (Sample.env 5 9 3) Sample.db
        pair.AccessToken "10.0.0.1").result = .ok pair2 := by
  refine ⟨by decide, _, rfl, ?_⟩
  have h : (AuthService.RefreshTokens Sample.cfgPaddedSecret (Sample.env 5 9 3) Sample.db
      (issued 0 7 "10.0.0.1" 1 "s3cret" (900 * second)) "10.0.0.1").result
      = .ok { AccessToken := issued 5 7 "10.0.0.1" 3 "s3cret" (900 * second),
              RefreshToken := issued 5 7 "10.0.0.1" 3 "s3cret\x00" (3600 * second) } := by
    decide
  exact ⟨_, h⟩

/-! ## The client address -/

/-- C7: the client IP is advisory only. For every store, every presented token
and every two addresses `a` and `b`, `RefreshTokens` from `a` and from `b` leave
the same committed store, fail with the same error when one of them fails, and
succeed together; and a token whose claims carry the address `a`, redeemable
while the database answers, is redeemed successfully from a different address
`b`. -/
theorem C7_client_ip_advisory (cfg : config.JWT) (env : Env) (db : Store)
    (tok : TokenString) (a b : String) :
    (AuthService.RefreshTokens cfg env db tok a).store
      = (AuthService.RefreshTokens cfg env db tok b).store ∧
    (∀ err, (AuthService.RefreshTokens cfg env db tok a).result = .error err ↔
      (AuthService.RefreshTokens cfg env db tok b).result = .error err) ∧
    ((∃ pa, (AuthService.RefreshTokens cfg env db tok a).result = .ok pa) ↔
      (∃ pb, (AuthService.RefreshTokens cfg env db tok b).result = .ok pb)) ∧
    (∀ claims user,
      DecodeToken env.nowDecode tok cfg.RefreshSecret = .ok claims →
      claims.IpAddress = a → a ≠ b →
      UserDB.GetUserByID env db claims.UserID = .ok user →
      claims.RefreshID = user.RefreshID → env.healthy →
      ∃ pb, (AuthService.RefreshTokens cfg env db tok b).result = .ok pb) := by
  refine ⟨?_, ?_, ?_, ?_⟩
  · rcases RefreshTokens_cases cfg env db tok with
      ⟨e, tx, _, he⟩ | ⟨claims, user, _, _, _, hok⟩
    · rw [he a, he b]
    · rw [hok a, hok b]
  · intro err
    rcases RefreshTokens_cases cfg env db tok with
      ⟨e, tx, _, he⟩ | ⟨claims, user, _, _, _, hok⟩
    · rw [he a, he b]
    · rw [hok a, hok b]
      simp
  · rcases RefreshTokens_cases cfg env db tok with
      ⟨e, tx, _, he⟩ | ⟨claims, user, _, _, _, hok⟩
    · rw [he a, he b]
    · rw [hok a, hok b]
      simp
  · intro claims user hd _ _ hu hid hh
    rw [RefreshTokens_success cfg env db tok b claims user hd hu hid hh]
    exact ⟨_, rfl⟩

/-- Witness of C7: the sample refresh token, issued for 10.0.0.1, is redeemed
from 10.0.0.2. -/
theorem C7_client_ip_advisory_witness :
    ∃ pb, (AuthService.RefreshTokens Sample.cfg (Sample.env 0 8 2) Sample.db
      Sample.refreshToken "10.0.0.2").result = .ok pb :=
  (C7_client_ip_advisory Sample.cfg (Sample.env 0 8 2) Sample.db Sample.refreshToken
    "10.0.0.1" "10.0.0.2").2.2.2 Sample.refreshClaims
    { ID := 7, Email := "a@x.com", RefreshID := 1 }
    (by decide) (by decide) (by decide) (by decide) (by decide) (by decide)

/-! ## Creating a user -/

/-- C8: for an email that no stored user has, `CreateUser` succeeds while the
database answers, returns the id of the user row it adds, and adds one refresh
row for that id. A second `CreateUser` with the same email then fails with the
error "user with this email already exists", which is not a database error
value, and leaves the committed store as it is, with no second user row and no
further refresh row. -/
theorem C8_create_user_once (cfg : config.JWT) (env1 env2 : Env) (db : Store)
    (user : dto.User) (ip1 ip2 : String)
    (hnew : ∀ u ∈ db.user, u.email ≠ user.Email)
    (h1 : env1.healthy)
    (hbegin2 : env2.beginErr = none) (hinsert2 : env2.insertUserErr = none) :
    ∃ id db1,
      (AuthService.CreateUser cfg env1 db user ip1).result = .ok id ∧
      (AuthService.CreateUser cfg env1 db user ip1).store = db1 ∧
      db1.user = db.user ++ [{ id := id, email := user.Email }] ∧
      db1.refresh = db.refresh ++ [{ refresh_id := env1.genRefreshID, user_id := id }] ∧
      (AuthService.CreateUser cfg env2 db1 user ip2).result
        = .error (.new "user with this email already exists") ∧
      (AuthService.CreateUser cfg env2 db1 user ip2).store = db1 ∧
      (∀ code message, Error.new "user with this email already exists" ≠ .pg code message) ∧
      (∀ text, Error.new "user with this email already exists" ≠ .driver text) := by
  obtain ⟨hb, hi, _, _, hins, _, _, hc⟩ := h1
  have hfirst : AuthService.CreateUser cfg env1 db user ip1 =
      { result := .ok env1.genUserID,
        store := created db env1.genUserID user.Email env1.genRefreshID,
        tx := .committed } := by
    unfold AuthService.CreateUser
    simp [Begin, hb, UserDB_Create_new env1 db user hi hnew, RefreshDB.Create, insertRefresh,
      hins, Commit, hc, created]
  have hdup : ∃ u ∈ (created db env1.genUserID user.Email env1.genRefreshID).user,
      u.email = user.Email :=
    ⟨{ id := env1.genUserID, email := user.Email }, by simp [created], rfl⟩
  have hsecond : AuthService.CreateUser cfg env2
      (created db env1.genUserID user.Email env1.genRefreshID) user ip2 =
      { result := .error (.new "user with this email already exists"),
        store := created db env1.genUserID user.Email env1.genRefreshID,
        tx := .rolledBack } := by
    unfold AuthService.CreateUser
    simp [Begin, hbegin2, UserDB_Create_duplicate env2 _ user hinsert2 hdup]
  refine ⟨env1.genUserID, created db env1.genUserID user.Email env1.genRefreshID,
    by rw [hfirst], by rw [hfirst], rfl, rfl, by rw [hsecond], by rw [hsecond], ?_, ?_⟩
  · intro code message h
    cases h
  · intro text h
    cases h

/-- Witness of C8: "b@x.com" is created in the sample store, then once more. -/
theorem C8_create_user_once_witness :
    ∃ id db1,
      (AuthService.CreateUser Sample.cfg (Sample.env 0 8 2) Sample.db { Email := "b@x.com" }
        "10.0.0.1").result = .ok id ∧
      (AuthService.CreateUser Sample.cfg (Sample.env 0 8 2) Sample.db { Email := "b@x.com" }
        "10.0.0.1").store = db1 ∧
      db1.user = Sample.db.user ++ [{ id := id, email := "b@x.com" }] ∧
      db1.refresh = Sample.db.refresh ++ [{ refresh_id := 2, user_id := id }] ∧
      (AuthService.CreateUser Sample.cfg (Sample.env 5 9 3) db1 { Email := "b@x.com" }
          "10.0.0.2").result
        = .error (.new "user with this email already exists") ∧
      (AuthService.CreateUser Sample.cfg (Sample.env 5 9 3) db1 { Email := "b@x.com" }
          "10.0.0.2").store = db1 ∧
      (∀ code message, Error.new "user with this email already exists" ≠ .pg code message) ∧
      (∀ text, Error.new "user with this email already exists" ≠ .driver text) :=
  C8_create_user_once Sample.cfg (Sample.env 0 8 2) (Sample.env 5 9 3) Sample.db
    { Email := "b@x.com" } "10.0.0.1" "10.0.0.2" (by decide) (by decide) (by decide)
    (by decide)

/-! ## The unauthorized error -/

/-- C10: "unauthorized" is uniform. `RefreshTokens` returns the one error value
`errors.New("unauthorized")`, and leaves the store as it is, when the signature of
the presented token does not verify under the refresh secret, when the token is
expired, and when the token decodes but its refresh_id differs from the stored
one; `GetCurrentUser` returns that same value when the signature does not verify
under the access secret and when the token is expired. -/
theorem C10_unauthorized_uniform (cfg : config.JWT) (env : Env) (db : Store) (ip : String) :
    (∀ alg claims sig, sig ≠ .hmac alg cfg.RefreshSecret claims →
      (AuthService.RefreshTokens cfg env db (.jwt alg claims sig) ip).result
          = .error (.new "unauthorized") ∧
        (AuthService.RefreshTokens cfg env db (.jwt alg claims sig) ip).store = db) ∧
    (∀ alg claims sig exp, claims.ExpiresAt = some exp → exp * second ≤ env.nowDecode →
      (AuthService.RefreshTokens cfg env db (.jwt alg claims sig) ip).result
          = .error (.new "unauthorized") ∧
        (AuthService.RefreshTokens cfg env db (.jwt alg claims sig) ip).store = db) ∧
    (∀ tok claims user,
      DecodeToken env.nowDecode tok cfg.RefreshSecret = .ok claims →
      env.beginErr = none →
      UserDB.GetUserByID env db claims.UserID = .ok user →
      claims.RefreshID ≠ user.RefreshID →
      (AuthService.RefreshTokens cfg env db tok ip).result = .error (.new "unauthorized") ∧
        (AuthService.RefreshTokens cfg env db tok ip).store = db) ∧
    (∀ alg claims sig, sig ≠ .hmac alg cfg.AccessSecret claims →
      (AuthService.GetCurrentUser cfg env db (.jwt alg claims sig)).result
          = .error (.new "unauthorized") ∧
        (AuthService.GetCurrentUser cfg env db (.jwt alg claims sig)).store = db) ∧
    (∀ alg claims sig exp, claims.ExpiresAt = some exp → exp * second ≤ env.nowDecode →
      (AuthService.GetCurrentUser cfg env db (.jwt alg claims sig)).result
          = .error (.new "unauthorized") ∧
        (AuthService.GetCurrentUser cfg env db (.jwt alg claims sig)).store = db) := by
  refine ⟨?_, ?_, ?_, ?_, ?_⟩
  · intro alg claims sig hsig
    obtain ⟨cause, hd⟩ := DecodeToken_bad_signature env.nowDecode alg claims sig _ hsig
    rw [RefreshTokens_decode_error cfg env db _ ip _ hd]
    exact ⟨rfl, rfl⟩
  · intro alg claims sig exp hexp hpast
    obtain ⟨cause, hd⟩ :=
      DecodeToken_expired env.nowDecode alg claims sig cfg.RefreshSecret exp hexp hpast
    rw [RefreshTokens_decode_error cfg env db _ ip _ hd]
    exact ⟨rfl, rfl⟩
  · intro tok claims user hd hb hu hne
    rw [RefreshTokens_mismatch cfg env db tok ip claims user hd hb hu hne]
    exact ⟨rfl, rfl⟩
  · intro alg claims sig hsig
    obtain ⟨cause, hd⟩ := DecodeToken_bad_signature env.nowDecode alg claims sig _ hsig
    rw [GetCurrentUser_decode_error cfg env db _ _ hd]
    exact ⟨rfl, rfl⟩
  · intro alg claims sig exp hexp hpast
    obtain ⟨cause, hd⟩ :=
      DecodeToken_expired env.nowDecode alg claims sig cfg.AccessSecret exp hexp hpast
    rw [GetCurrentUser_decode_error cfg env db _ _ hd]
    exact ⟨rfl, rfl⟩

/-- Witness of C10: a forged tag, the sample token after its expiry at 3600 s and
a validly signed token with a stale refresh id are all answered alike. -/
theorem C10_unauthorized_uniform_witness :
    (AuthService.RefreshTokens Sample.cfg (Sample.env 5 9 3) Sample.db Sample.forgedToken
        "10.0.0.1").result = .error (.new "unauthorized") ∧
    (AuthService.RefreshTokens Sample.cfg (Sample.env (3600 * second) 9 3) Sample.db
        Sample.refreshToken "10.0.0.1").result = .error (.new "unauthorized") ∧
    (AuthService.RefreshTokens Sample.cfg (Sample.env 5 9 3) Sample.db Sample.staleToken
        "10.0.0.1").result = .error (.new "unauthorized") ∧
    (AuthService.GetCurrentUser Sample.cfg (Sample.env 5 9 3) Sample.db
        Sample.forgedAccessToken).result = .error (.new "unauthorized") ∧
    (AuthService.GetCurrentUser Sample.cfg (Sample.env (900 * second) 9 3) Sample.db
        Sample.accessToken).result = .error (.new "unauthorized") :=
  ⟨((C10_unauthorized_uniform Sample.cfg (Sample.env 5 9 3) Sample.db "10.0.0.1").1
      .HS512 Sample.refreshClaims (.junk "AAAA") (by decide)).1,
    ((C10_unauthorized_uniform Sample.cfg (Sample.env (3600 * second) 9 3) Sample.db
      "10.0.0.1").2.1 .HS512 Sample.refreshClaims _ 3600 (by decide) (by decide)).1,
    ((C10_unauthorized_uniform Sample.cfg (Sample.env 5 9 3) Sample.db "10.0.0.1").2.2.1
      Sample.staleToken (newClaims 0 7 "10.0.0.1" 0 (3600 * second))
      { ID := 7, Email := "a@x.com", RefreshID := 1 }
      (by decide) (by decide) (by decide) (by decide)).1,
    ((C10_unauthorized_uniform Sample.cfg (Sample.env 5 9 3) Sample.db "10.0.0.1").2.2.2.1
      .HS512 (newClaims 0 7 "10.0.0.1" 1 (900 * second)) (.junk "AAAA") (by decide)).1,
    ((C10_unauthorized_uniform Sample.cfg (Sample.env (900 * second) 9 3) Sample.db
      "10.0.0.1").2.2.2.2 .HS512 (newClaims 0 7 "10.0.0.1" 1 (900 * second)) _ 900
      (by decide) (by decide)).1⟩

/-! ## Resolving an access token -/

theorem find_refresh_of_one_row (db : Store) (id : UUID) (h : refreshRowsOf db id = 1) :
    ∃ r, db.refresh.find? (fun r => r.user_id = id) = some r := by
  unfold refreshRowsOf at h
  have hpos : 0 < (db.refresh.filter fun r => r.user_id = id).length := by omega
  obtain ⟨r, hr⟩ := List.exists_mem_of_length_pos hpos
  have hsome : (db.refresh.find? (fun r => r.user_id = id)).isSome = true := by
    rw [List.find?_isSome]
    exact ⟨r, (List.mem_filter.mp hr).1, (List.mem_filter.mp hr).2⟩
  exact Option.isSome_iff_exists.mp hsome

theorem firstJoined_of_stored (db : Store) (u : UserRow)
    (hpk : (db.user.map fun x => x.id).Nodup) (hu : u ∈ db.user)
    (hinv : OneRefreshPerUser db) :
    ∃ rid, firstJoined db u.id = some { ID := u.id, Email := u.email, RefreshID := rid } := by
  obtain ⟨r, hr⟩ := find_refresh_of_one_row db u.id (hinv u hu)
  refine ⟨r.refresh_id, ?_⟩
  unfold firstJoined
  rw [find_user_of_nodup db.user u hpk hu, hr]

theorem GetCurrentUser_resolves (cfg : config.JWT) (env : Env) (db : Store)
    (tok : TokenString) (claims : models.Token) (user : models.UserWithRefresh)
    (hd : DecodeToken env.nowDecode tok cfg.AccessSecret = .ok claims)
    (hb : env.beginErr = none)
    (hu : UserDB.GetUserByID env db claims.UserID = .ok user) :
    AuthService.GetCurrentUser cfg env db tok =
      { result := .ok { ID := user.ID, Email := user.Email }, store := db,
        tx := .rolledBack } := by
  unfold AuthService.GetCurrentUser
  simp [hd, Begin, hb, hu]

theorem rotated_user (db : Store) (id : UUID) (g : Int) : (rotated db id g).user = db.user :=
  rfl

/-- C11: `GetCurrentUser` does not compare the token's refresh_id with the stored
one. In a store where user ids are unique and every user row has its one refresh
row, for every stored user `u` and every access token that the access secret
verifies, that is within its validity window and that names `u`, `GetCurrentUser`
returns the id and email of `u` while the database answers, whatever refresh_id
the token carries; and it returns them again in the store any successful
`RefreshTokens` has committed, so the token resolves after a rotation. -/
theorem C11_access_token_ignores_refresh_id (cfg : config.JWT) (env : Env) (db : Store)
    (u : UserRow) (tok : TokenString) (claims : models.Token)
    (hpk : (db.user.map fun x => x.id).Nodup) (hu : u ∈ db.user)
    (hinv : OneRefreshPerUser db)
    (hvalid : DecodeToken env.nowDecode tok cfg.AccessSecret = .ok claims)
    (hfor : claims.UserID = u.id)
    (hbegin : env.beginErr = none) (hselect : env.selectUserErr = none) :
    (AuthService.GetCurrentUser cfg env db tok).result
      = .ok { ID := u.id, Email := u.email } ∧
    ∀ (env1 : Env) (presented : TokenString) (ip : String) (pair : models.TokensPair),
      (AuthService.RefreshTokens cfg env1 db presented ip).result = .ok pair →
      (AuthService.GetCurrentUser cfg env
          (AuthService.RefreshTokens cfg env1 db presented ip).store tok).result
        = .ok { ID := u.id, Email := u.email } := by
  have key : ∀ db2 : Store, (db2.user.map fun x => x.id).Nodup → u ∈ db2.user →
      OneRefreshPerUser db2 →
      (AuthService.GetCurrentUser cfg env db2 tok).result
        = .ok { ID := u.id, Email := u.email } := by
    intro db2 hpk2 hu2 hinv2
    obtain ⟨rid, hj⟩ := firstJoined_of_stored db2 u hpk2 hu2 hinv2
    have hlook : UserDB.GetUserByID env db2 claims.UserID
        = .ok { ID := u.id, Email := u.email, RefreshID := rid } := by
      rw [GetUserByID_of_healthy env db2 _ hselect, hfor, hj]
    rw [GetCurrentUser_resolves cfg env db2 tok claims _ hvalid hbegin hlook]
  refine ⟨key db hpk hu hinv, ?_⟩
  intro env1 presented ip pair hok
  rcases RefreshTokens_cases cfg env1 db presented with
    ⟨e, tx, _, he⟩ | ⟨claims1, user1, _, _, _, hrot⟩
  · rw [he ip] at hok
    simp at hok
  · rw [hrot ip]
    exact key _ (by rw [rotated_user]; exact hpk) (by rw [rotated_user]; exact hu)
      (OneRefreshPerUser_rotated db _ _ hinv)

/-- Witness of C11: the sample access token carries the refresh id 1; after the
sample refresh token is redeemed the stored refresh id is 2 and the access token
still resolves. -/
theorem C11_access_token_ignores_refresh_id_witness :
    (AuthService.GetCurrentUser Sample.cfg (Sample.env 5 9 3) Sample.db
        Sample.accessToken).result = .ok { ID := 7, Email := "a@x.com" } ∧
    (AuthService.GetCurrentUser Sample.cfg (Sample.env 5 9 3)
        (AuthService.RefreshTokens Sample.cfg (Sample.env 0 8 2) Sample.db
          Sample.refreshToken "10.0.0.1").store Sample.accessToken).result
      = .ok { ID := 7, Email := "a@x.com" } ∧
    UserDB.GetUserByID (Sample.env 5 9 3)
        (AuthService.RefreshTokens Sample.cfg (Sample.env 0 8 2) Sample.db
          Sample.refreshToken "10.0.0.1").store 7
      = .ok { ID := 7, Email := "a@x.com", RefreshID := 2 } :=
  ⟨(C11_access_token_ignores_refresh_id Sample.cfg (Sample.env 5 9 3) Sample.db
      { id := 7, email := "a@x.com" } Sample.accessToken
      (newClaims 0 7 "10.0.0.1" 1 (900 * second))
      (by decide) (by decide) (by decide) (by decide) (by decide) (by decide)
      (by decide)).1,
    (C11_access_token_ignores_refresh_id Sample.cfg (Sample.env 5 9 3) Sample.db
      { id := 7, email := "a@x.com" } Sample.accessToken
      (newClaims 0 7 "10.0.0.1" 1 (900 * second))
      (by decide) (by decide) (by decide) (by decide) (by decide) (by decide)
      (by decide)).2 (Sample.env 0 8 2) Sample.refreshToken "10.0.0.1" _ rfl,
    by decide⟩

/-! ## How a successful call ends its transaction -/

/-- C12, as stated, fails: `GetTokens` and `GetCurrentUser` return successfully on
the sample store without a commit; their transaction is closed by the deferred
`tx.Rollback`. -/
theorem C12_counterexample :
    (∃ pair, (AuthService.GetTokens Sample.cfg (Sample.env 0 8 2) Sample.db 7
        "10.0.0.1").result = .ok pair) ∧
    (AuthService.GetTokens Sample.cfg (Sample.env 0 8 2) Sample.db 7 "10.0.0.1").tx
      = .rolledBack ∧
    (∃ user, (AuthService.GetCurrentUser Sample.cfg (Sample.env 5 9 3) Sample.db
        Sample.accessToken).result = .ok user) ∧
    (AuthService.GetCurrentUser Sample.cfg (Sample.env 5 9 3) Sample.db
        Sample.accessToken).tx = .rolledBack := by
  refine ⟨⟨_, rfl⟩, by decide, ⟨_, rfl⟩, by decide⟩

/-- C12, amended: the two operations that write end a successful call with a
commit, the two that only read do not. A successful `CreateUser` and a
successful `RefreshTokens` return after `tx.Commit` has succeeded; a successful
`GetTokens` and a successful `GetCurrentUser` return without a commit, their
transaction is closed by the deferred `tx.Rollback`, and the committed store is
the store before the call. -/
theorem C12_commit_only_after_writes (cfg : config.JWT) (env : Env) (db : Store) :
    (∀ (user : dto.User) (ip : String) (id : UUID),
      (AuthService.CreateUser cfg env db user ip).result = .ok id →
      (AuthService.CreateUser cfg env db user ip).tx = .committed) ∧
    (∀ (tok : TokenString) (ip : String) (pair : models.TokensPair),
      (AuthService.RefreshTokens cfg env db tok ip).result = .ok pair →
      (AuthService.RefreshTokens cfg env db tok ip).tx = .committed) ∧
    (∀ (userID : UUID) (ip : String) (pair : models.TokensPair),
      (AuthService.GetTokens cfg env db userID ip).result = .ok pair →
      (AuthService.GetTokens cfg env db userID ip).tx = .rolledBack ∧
        (AuthService.GetTokens cfg env db userID ip).store = db) ∧
    (∀ (tok : TokenString) (user : models.User),
      (AuthService.GetCurrentUser cfg env db tok).result = .ok user →
      (AuthService.GetCurrentUser cfg env db tok).tx = .rolledBack ∧
        (AuthService.GetCurrentUser cfg env db tok).store = db) := by
  refine ⟨?_, ?_, ?_, ?_⟩
  · intro user ip id h
    rcases CreateUser_cases cfg env db user ip with ⟨e, tx, _, he⟩ | ⟨_, hok⟩
    · rw [he] at h
      simp at h
    · rw [hok]
  · intro tok ip pair h
    rcases RefreshTokens_cases cfg env db tok with
      ⟨e, tx, _, he⟩ | ⟨claims, user, _, _, _, hok⟩
    · rw [he ip] at h
      simp at h
    · rw [hok ip]
  · intro userID ip pair h
    rcases GetTokens_cases cfg env db userID ip with ⟨e, tx, _, he⟩ | ⟨user, _, hok⟩
    · rw [he] at h
      simp at h
    · rw [hok]
      exact ⟨rfl, rfl⟩
  · intro tok user h
    rcases GetCurrentUser_cases cfg env db tok with
      ⟨e, tx, _, he⟩ | ⟨claims, row, _, _, hok⟩
    · rw [he] at h
      simp at h
    · rw [hok]
      exact ⟨rfl, rfl⟩

/-- Witness of C12, amended: one successful call of each operation on the sample
store. -/
theorem C12_commit_only_after_writes_witness :
    (AuthService.CreateUser Sample.cfg (Sample.env 0 8 2) Sample.db { Email := "b@x.com" }
        "10.0.0.1").tx = .committed ∧
    (AuthService.RefreshTokens Sample.cfg (Sample.env 0 8 2) Sample.db Sample.refreshToken
        "10.0.0.1").tx = .committed ∧
    ((AuthService.GetTokens Sample.cfg (Sample.env 0 8 2) Sample.db 7 "10.0.0.1").tx
        = .rolledBack ∧
      (AuthService.GetTokens Sample.cfg (Sample.env 0 8 2) Sample.db 7 "10.0.0.1").store
        = Sample.db) ∧
    ((AuthService.GetCurrentUser Sample.cfg (Sample.env 0 8 2) Sample.db
        Sample.accessToken).tx = .rolledBack ∧
      (AuthService.GetCurrentUser Sample.cfg (Sample.env 0 8 2) Sample.db
        Sample.accessToken).store = Sample.db) :=
  ⟨(C12_commit_only_after_writes Sample.cfg (Sample.env 0 8 2) Sample.db).1
      { Email := "b@x.com" } "10.0.0.1" 8 rfl,
    (C12_commit_only_after_writes Sample.cfg (Sample.env 0 8 2) Sample.db).2.1
      Sample.refreshToken "10.0.0.1" _ rfl,
    (C12_commit_only_after_writes Sample.cfg (Sample.env 0 8 2) Sample.db).2.2.1
      7 "10.0.0.1" _ rfl,
    (C12_commit_only_after_writes Sample.cfg (Sample.env 0 8 2) Sample.db).2.2.2
      Sample.accessToken { ID := 7, Email := "a@x.com" } rfl⟩

/-! ## What the rotated tokens carry -/

theorem RefreshTokens_ok_steps (cfg : config.JWT) (env : Env) (db : Store)
    (tok : TokenString) (ip : String) (pair : models.TokensPair)
    (h : (AuthService.RefreshTokens cfg env db tok ip).result = .ok pair) :
    ∃ claims user tx1,
      DecodeToken env.nowDecode tok cfg.RefreshSecret = .ok claims ∧
      UserDB.GetUserByID env db claims.UserID = .ok user ∧
      user.ID = claims.UserID ∧
      RefreshDB.Delete env db user.ID = .ok tx1 ∧
      RefreshDB.Create env tx1 user.ID
        = .ok (env.genRefreshID, (AuthService.RefreshTokens cfg env db tok ip).store) ∧
      pair =
        { AccessToken := issued env.nowAccess user.ID ip env.genRefreshID
            cfg.AccessSecret cfg.AccessTokenLifetime,
          RefreshToken := issued env.nowRefresh user.ID ip env.genRefreshID
            cfg.RefreshSecret cfg.RefreshTokenLifetime } := by
  rcases RefreshTokens_cases cfg env db tok with
    ⟨e, tx, _, he⟩ | ⟨claims, user, hd, hu, hid, hok⟩
  · rw [he ip] at h
    simp at h
  · have hrun := hok ip
    rw [hrun] at h ⊢
    simp only [Except.ok.injEq] at h
    have huid := firstJoined_ID db claims.UserID user (GetUserByID_ok env db _ user hu)
    unfold AuthService.RefreshTokens at hrun
    simp only [hd] at hrun
    cases hb : env.beginErr with
    | some e => simp [Begin, hb] at hrun
    | none =>
      cases hdel : env.deleteRefreshErr with
      | some e => simp [Begin, hb, hu, hid, RefreshDB.Delete, deleteRefresh, hdel] at hrun
      | none =>
        cases hins : env.insertRefreshErr with
        | some e =>
          simp [Begin, hb, hu, hid, RefreshDB.Delete, deleteRefresh, hdel, RefreshDB.Create,
            insertRefresh, hins] at hrun
        | none =>
          refine ⟨claims, user,
            { db with refresh := db.refresh.filter fun r => r.user_id ≠ user.ID },
            hd, hu, huid, ?_, ?_, h.symm⟩
          · simp [RefreshDB.Delete, deleteRefresh, hdel]
          · simp [RefreshDB.Create, insertRefresh, hins, rotated]

/-- C13: for every successful `RefreshTokens(token, ipAddress)`, the returned
access token is signed under the access secret and the returned refresh token
under the refresh secret, and each decodes, at any instant before its expiry, to
claims whose UserID is the UserID of the presented token, whose RefreshID is the
id `RefreshDB.Create` has just returned, and whose IpAddress is the `ipAddress`
argument of the call, whatever IpAddress the presented token carries. -/
theorem C13_rotated_tokens_carry_caller_ip (cfg : config.JWT) (env : Env) (db : Store)
    (tok : TokenString) (ipAddress : String) (pair : models.TokensPair)
    (hok : (AuthService.RefreshTokens cfg env db tok ipAddress).result = .ok pair) :
    ∃ (presented : models.Token) (tx1 : Store) (newRefreshID : Int)
        (access refresh : models.Token),
      DecodeToken env.nowDecode tok cfg.RefreshSecret = .ok presented ∧
      RefreshDB.Create env tx1 presented.UserID
        = .ok (newRefreshID, (AuthService.RefreshTokens cfg env db tok ipAddress).store) ∧
      pair.AccessToken = .jwt .HS512 access (.hmac .HS512 cfg.AccessSecret access) ∧
      pair.RefreshToken = .jwt .HS512 refresh (.hmac .HS512 cfg.RefreshSecret refresh) ∧
      (∀ u : Int, u < expiryUnix env.nowAccess cfg.AccessTokenLifetime * second →
        DecodeToken u pair.AccessToken cfg.AccessSecret = .ok access) ∧
      (∀ u : Int, u < expiryUnix env.nowRefresh cfg.RefreshTokenLifetime * second →
        DecodeToken u pair.RefreshToken cfg.RefreshSecret = .ok refresh) ∧
      access.UserID = presented.UserID ∧ access.RefreshID = newRefreshID ∧
      access.IpAddress = ipAddress ∧
      refresh.UserID = presented.UserID ∧ refresh.RefreshID = newRefreshID ∧
      refresh.IpAddress = ipAddress := by
  obtain ⟨claims, user, tx1, hd, _, huid, _, hcreate, hpair⟩ :=
    RefreshTokens_ok_steps cfg env db tok ipAddress pair hok
  subst hpair
  refine ⟨claims, tx1, env.genRefreshID,
    newClaims env.nowAccess user.ID ipAddress env.genRefreshID cfg.AccessTokenLifetime,
    newClaims env.nowRefresh user.ID ipAddress env.genRefreshID cfg.RefreshTokenLifetime,
    hd, by rw [← huid]; exact hcreate, rfl, rfl, ?_, ?_, huid, rfl, rfl, huid, rfl, rfl⟩
  · intro u hu
    simp only
    rw [DecodeToken_issued, if_pos hu]
  · intro u hu
    simp only
    rw [DecodeToken_issued, if_pos hu]

/-- Witness of C13: the sample refresh token, issued for 10.0.0.1, is redeemed
from 10.0.0.2 at instant 0; both new tokens, decoded at instant 5, carry user 7,
the new refresh id 2 and the address 10.0.0.2. -/
theorem C13_rotated_tokens_carry_caller_ip_witness :
    ∃ (presented : models.Token) (tx1 : Store) (newRefreshID : Int)
        (access refresh : models.Token),
      DecodeToken 0 Sample.refreshToken "refresh-secret" = .ok presented ∧
      RefreshDB.Create (Sample.env 0 8 2) tx1 presented.UserID
        = .ok (newRefreshID, (AuthService.RefreshTokens Sample.cfg (Sample.env 0 8 2)
            Sample.db Sample.refreshToken "10.0.0.2").store) ∧
      issued 0 7 "10.0.0.2" 2 "access-secret" (900 * second)
        = .jwt .HS512 access (.hmac .HS512 "access-secret" access) ∧
      issued 0 7 "10.0.0.2" 2 "refresh-secret" (3600 * second)
        = .jwt .HS512 refresh (.hmac .HS512 "refresh-secret" refresh) ∧
      DecodeToken 5 (issued 0 7 "10.0.0.2" 2 "access-secret" (900 * second)) "access-secret"
        = .ok access ∧
      DecodeToken 5 (issued 0 7 "10.0.0.2" 2 "refresh-secret" (3600 * second))
        "refresh-secret" = .ok refresh ∧
      access.UserID = presented.UserID ∧ access.RefreshID = newRefreshID ∧
      access.IpAddress = "10.0.0.2" ∧
      refresh.UserID = presented.UserID ∧ refresh.RefreshID = newRefreshID ∧
      refresh.IpAddress = "10.0.0.2" ∧
      presented.IpAddress = "10.0.0.1" ∧ newRefreshID = 2 :=
  match C13_rotated_tokens_carry_caller_ip Sample.cfg (Sample.env 0 8 2) Sample.db
      Sample.refreshToken "10.0.0.2"
      { AccessToken := issued 0 7 "10.0.0.2" 2 "access-secret" (900 * second),
        RefreshToken := issued 0 7 "10.0.0.2" 2 "refresh-secret" (3600 * second) }
      rfl with
  | ⟨presented, tx1, newRefreshID, access, refresh, h0, h1, h2, h3, h4, h5, h6, h7, h8, h9,
      h10, h11⟩ =>
    ⟨presented, tx1, newRefreshID, access, refresh, h0, h1, h2, h3, h4 5 (by decide),
      h5 5 (by decide), h6, h7, h8, h9, h10, h11,
      by
        have hp : Except.ok presented = Except.ok Sample.refreshClaims := h0.symm.trans rfl
        injection hp with hp
        rw [hp]
        rfl,
      by
        have hc : DecodeToken 5 (issued 0 7 "10.0.0.2" 2 "access-secret" (900 * second))
            "access-secret" = .ok (newClaims 0 7 "10.0.0.2" 2 (900 * second)) := rfl
        have ha := (h4 5 (by decide)).symm.trans hc
        injection ha with ha
        rw [← h7, ha]
        rfl⟩

end JwtAuth
